import Mathlib

/-!
# Lumos physics engine: fixed-timestep update loop, integrator, narrowphase filter, solver order

A shallow embedding of `Lumos/src/Physics/LumosPhysicsEngine/LumosPhysicsEngine.cpp`.

* `float` is modelled by `ℚ` (exact arithmetic); rounding, NaN and infinities are outside the model.
* Objects reached through pointers (`Ref<PhysicsObject3D>`, `Manifold*`, `Constraint*`) live in a
  `World`; the engine's containers hold references into it.
* Classes whose source is not part of this translation unit (`Integration`, `CollisionDetection`,
  `Manifold`, `Constraint`, the collision callbacks, `PhysicsObject3D::RestTest`, the quaternion
  product and normalisation) are taken as parameters, collected in `Externals`.
* `steps` and `log` are observation fields: the number of `UpdatePhysics` calls made so far and the
  messages passed to `LUMOS_LOG_CRITICAL`.
-/

namespace Lumos

namespace Maths

/-- The engine's 3-vector (`Maths::Vector3`), with component-wise arithmetic. -/
structure Vector3 where
  x : ℚ
  y : ℚ
  z : ℚ
deriving DecidableEq, Repr

/-- Component-wise sum, `Vector3::operator+`. -/
def Vector3.add (a b : Vector3) : Vector3 := ⟨a.x + b.x, a.y + b.y, a.z + b.z⟩

/-- Scaling by a scalar, `Vector3::operator*(float)`. -/
def Vector3.scale (a : Vector3) (s : ℚ) : Vector3 := ⟨a.x * s, a.y * s, a.z * s⟩

/-- Squared Euclidean length, `Vector3::LengthSquared`. -/
def Vector3.LengthSquared (a : Vector3) : ℚ := a.x * a.x + a.y * a.y + a.z * a.z

instance : Add Vector3 := ⟨Vector3.add⟩
instance : HMul Vector3 ℚ Vector3 := ⟨Vector3.scale⟩

/-- The engine's quaternion (`Maths::Quaternion`). -/
structure Quaternion where
  x : ℚ
  y : ℚ
  z : ℚ
  w : ℚ
deriving DecidableEq, Repr

/-- Component-wise sum, `Quaternion::operator+`. -/
def Quaternion.add (a b : Quaternion) : Quaternion := ⟨a.x + b.x, a.y + b.y, a.z + b.z, a.w + b.w⟩

instance : Add Quaternion := ⟨Quaternion.add⟩

/-- The engine's 3×3 matrix (`Maths::Matrix3`), given by its rows. -/
structure Matrix3 where
  r0 : Vector3
  r1 : Vector3
  r2 : Vector3
deriving DecidableEq, Repr

/-- Matrix-vector product, `Matrix3::operator*(Vector3)`. -/
def Matrix3.mulVec (m : Matrix3) (v : Vector3) : Vector3 :=
  ⟨m.r0.x * v.x + m.r0.y * v.y + m.r0.z * v.z,
   m.r1.x * v.x + m.r1.y * v.y + m.r1.z * v.z,
   m.r2.x * v.x + m.r2.y * v.y + m.r2.z * v.z⟩

instance : HMul Matrix3 Vector3 Vector3 := ⟨Matrix3.mulVec⟩

end Maths

open Maths

/-- The four integration schemes selectable at run time. -/
inductive IntegrationType where
  | EXPLICIT_EULER
  | SEMI_IMPLICIT_EULER
  | RUNGE_KUTTA_2
  | RUNGE_KUTTA_4
deriving DecidableEq, Repr

namespace Integration

/-- The transient tuple `Integration::State` handed to the Runge-Kutta routines. -/
structure State where
  position : Vector3
  velocity : Vector3
  acceleration : Vector3
deriving DecidableEq, Repr

end Integration

/-- A handle on a collision shape (`Ref<CollisionShape>`). -/
abbrev CollisionShape := ℕ

/-- Modelled from the spec: the body record of `PhysicsObject3D.h`, which is not part of the
translation unit. The kinematic members are the ones `UpdatePhysicsObject` reads and writes; the
spec's separate "static" flag and "awake" flag are what `GetIsStatic()` and `IsAwake()` return, and
the collision shape may be absent (a null `Ref`). -/
structure PhysicsObject3D where
  m_Position : Vector3
  m_LinearVelocity : Vector3
  m_Force : Vector3
  m_InvMass : ℚ
  m_Orientation : Quaternion
  m_AngularVelocity : Vector3
  m_Torque : Vector3
  m_InvInertia : Matrix3
  m_Static : Bool
  m_Awake : Bool
  m_wsTransformInvalidated : Bool
  m_wsAabbInvalidated : Bool
  m_CollisionShape : Option CollisionShape
deriving DecidableEq, Repr

/-- Reads the static flag. -/
def PhysicsObject3D.GetIsStatic (o : PhysicsObject3D) : Bool := o.m_Static

/-- Reads the awake flag. -/
def PhysicsObject3D.IsAwake (o : PhysicsObject3D) : Bool := o.m_Awake

/-- Reads the collision shape; `none` is the null reference. -/
def PhysicsObject3D.GetCollisionShape (o : PhysicsObject3D) : Option CollisionShape :=
  o.m_CollisionShape

/-- A reference to a body owned by the host scene (`Ref<PhysicsObject3D>`). -/
abbrev ObjRef := ℕ

/-- A handle on a joint owned by the host (`Constraint*`). -/
abbrev ConstraintRef := ℕ

/-- One broadphase candidate: an ordered pair of body references. -/
structure CollisionPair where
  pObjectA : ObjRef
  pObjectB : ObjRef
deriving DecidableEq, Repr

/-- A contact manifold as the engine sees it: the two bodies given to `Initiate` and the contact
data of type `K` that `BuildCollisionManifold` filled in. -/
structure Manifold (K : Type) where
  pObjectA : ObjRef
  pObjectB : ObjRef
  contacts : K
deriving DecidableEq, Repr

/-- The pair a manifold was initiated with. -/
def Manifold.pair {K : Type} (m : Manifold K) : CollisionPair := ⟨m.pObjectA, m.pObjectB⟩

/-- Everything reachable through pointers: the bodies, and the state `H` of the host-side
collaborators (callback targets, solver accumulators, detector caches). -/
structure World (H : Type) where
  bodies : ObjRef → PhysicsObject3D
  host : H

/-- Applies `f` to the body behind reference `r`. -/
def World.modifyBody {H : Type} (w : World H) (r : ObjRef)
    (f : PhysicsObject3D → PhysicsObject3D) : World H :=
  { w with bodies := Function.update w.bodies r (f (w.bodies r)) }

/-- The pluggable broadphase: from the working set of bodies to candidate pairs. -/
abbrev Broadphase (H : Type) := List ObjRef → World H → List CollisionPair

/-- The collaborators whose code is outside this translation unit. `H` is the host state, `D` is
`CollisionData`, `K` is the contact data of a manifold. -/
structure Externals (H D K : Type) where
  /-- The product `Quaternion::operator*(Vector3)`. -/
  QuaternionMulVector3 : Quaternion → Vector3 → Quaternion
  /-- The method `Quaternion::Normalise`. -/
  QuaternionNormalise : Quaternion → Quaternion
  /-- The routine `Integration::RK2(state, t, dt)`. -/
  RK2 : Integration.State → ℚ → ℚ → Integration.State
  /-- The routine `Integration::RK4(state, t, dt)`. -/
  RK4 : Integration.State → ℚ → ℚ → Integration.State
  /-- The method `PhysicsObject3D::RestTest`. -/
  RestTest : PhysicsObject3D → PhysicsObject3D
  /-- The veto callback `self->FireOnCollisionEvent(self, other)`, with its side effects. -/
  FireOnCollisionEvent : ObjRef → ObjRef → World H → Bool × World H
  /-- The callback `self->FireOnCollisionManifoldCallback(self, other, manifold)`. -/
  FireOnCollisionManifoldCallback : ObjRef → ObjRef → Manifold K → World H → World H
  /-- A default-constructed `CollisionData`. -/
  defaultCollisionData : D
  /-- The test `CollisionDetection::CheckCollision`: its verdict, the `CollisionData` it wrote,
  and the world it left. -/
  CheckCollision : ObjRef → ObjRef → CollisionShape → CollisionShape → D → World H → Bool × D × World H
  /-- The builder `CollisionDetection::BuildCollisionManifold`; `none` is failure. -/
  BuildCollisionManifold : ObjRef → ObjRef → CollisionShape → CollisionShape → D → World H →
    Option K × World H
  /-- The constant `SOLVER_ITERATIONS`. -/
  SOLVER_ITERATIONS : ℕ
  /-- The method `Manifold::PreSolverStep(dt)`. -/
  ManifoldPreSolverStep : Manifold K → ℚ → World H → World H
  /-- The method `Manifold::ApplyImpulse()`. -/
  ManifoldApplyImpulse : Manifold K → World H → World H
  /-- The method `Constraint::PreSolverStep(dt)`. -/
  ConstraintPreSolverStep : ConstraintRef → ℚ → World H → World H
  /-- The method `Constraint::ApplyImpulse()`. -/
  ConstraintApplyImpulse : ConstraintRef → World H → World H

/-- An entity of the host scene; `physics3D` is the body of its `Physics3DComponent`, if any. -/
structure Entity where
  physics3D : Option ObjRef
deriving DecidableEq, Repr

/-- The host scene, as the sequence `IterateEntities` visits. -/
abbrev Scene := List Entity

/-- The engine: its members, the static `s_UpdateTimestep`, the world its member functions act
on, and the two observation fields. -/
structure LumosPhysicsEngine (H K : Type) where
  m_IsPaused : Bool
  m_MultipleUpdates : Bool
  m_UpdateAccum : ℚ
  s_UpdateTimestep : ℚ
  m_Gravity : Vector3
  m_DampingFactor : ℚ
  m_IntegrationType : IntegrationType
  m_BroadphaseDetection : Option (Broadphase H)
  m_PhysicsObjects : List ObjRef
  m_BroadphaseCollisionPairs : List CollisionPair
  m_Manifolds : List (Manifold K)
  m_Constraints : List ConstraintRef
  world : World H
  steps : ℕ
  log : List String

variable {H D K : Type}

/-- The constructor `LumosPhysicsEngine::LumosPhysicsEngine()`, with the static step size at its
initial value. The constructor does not write `m_MultipleUpdates`; its initial value comes from
the class declaration, which is outside this translation unit, so it is an argument here, as is
the world the engine is created in. -/
def LumosPhysicsEngine.construct (multipleUpdates : Bool) (w : World H) : LumosPhysicsEngine H K :=
  { m_IsPaused := true
    m_MultipleUpdates := multipleUpdates
    m_UpdateAccum := 0
    s_UpdateTimestep := 1 / 60
    m_Gravity := ⟨0, -981 / 100, 0⟩
    m_DampingFactor := 999 / 1000
    m_IntegrationType := IntegrationType.RUNGE_KUTTA_4
    m_BroadphaseDetection := none
    m_PhysicsObjects := []
    m_BroadphaseCollisionPairs := []
    m_Manifolds := []
    m_Constraints := []
    world := w
    steps := 0
    log := [] }

/-- The member function `SetDefaults`. -/
def LumosPhysicsEngine.SetDefaults (e : LumosPhysicsEngine H K) : LumosPhysicsEngine H K :=
  { e with
    m_IsPaused := true
    s_UpdateTimestep := 1 / 60
    m_UpdateAccum := 0
    m_Gravity := ⟨0, -981 / 100, 0⟩
    m_DampingFactor := 999 / 1000
    m_IntegrationType := IntegrationType.RUNGE_KUTTA_4 }

/-- The orientation update shared by all four schemes:
`q = q + q * (ω * dt * 0.5); q.Normalise()`. -/
def updateOrientation (X : Externals H D K) (dt : ℚ) (obj : PhysicsObject3D) : PhysicsObject3D :=
  { obj with
    m_Orientation := X.QuaternionNormalise
      (obj.m_Orientation +
        X.QuaternionMulVector3 obj.m_Orientation (obj.m_AngularVelocity * dt * (1 / 2 : ℚ))) }

/-- The angular velocity update shared by all four schemes:
`ω += I⁻¹ * τ * dt; ω = ω * damping`. -/
def updateAngularVelocity (dt damping : ℚ) (obj : PhysicsObject3D) : PhysicsObject3D :=
  { obj with
    m_AngularVelocity :=
      (obj.m_AngularVelocity + (obj.m_InvInertia * obj.m_Torque) * dt) * damping }

/-- The gravity statement ahead of the `switch`:
`if (m_InvMass > 0) m_LinearVelocity += m_Gravity * dt`. -/
def applyGravity (g : Vector3) (dt : ℚ) (obj : PhysicsObject3D) : PhysicsObject3D :=
  if obj.m_InvMass > 0 then
    { obj with m_LinearVelocity := obj.m_LinearVelocity + g * dt }
  else obj

/-- The `switch (m_IntegrationType)` of `UpdatePhysicsObject`, statement by statement. -/
def integrate (X : Externals H D K) (ty : IntegrationType) (dt damping : ℚ)
    (obj : PhysicsObject3D) : PhysicsObject3D :=
  match ty with
  | IntegrationType.EXPLICIT_EULER =>
    let o1 := { obj with m_Position := obj.m_Position + obj.m_LinearVelocity * dt }
    let o2 := { o1 with
      m_LinearVelocity := o1.m_LinearVelocity + o1.m_Force * o1.m_InvMass * dt }
    let o3 := { o2 with m_LinearVelocity := o2.m_LinearVelocity * damping }
    let o4 := updateOrientation X dt o3
    updateAngularVelocity dt damping o4
  | IntegrationType.SEMI_IMPLICIT_EULER =>
    let o1 := { obj with
      m_LinearVelocity := obj.m_LinearVelocity + obj.m_LinearVelocity * obj.m_InvMass * dt }
    let o2 := { o1 with m_LinearVelocity := o1.m_LinearVelocity * damping }
    let o3 := { o2 with m_Position := o2.m_Position + o2.m_LinearVelocity * dt }
    let o4 := updateAngularVelocity dt damping o3
    updateOrientation X dt o4
  | IntegrationType.RUNGE_KUTTA_2 =>
    let state := X.RK2 ⟨obj.m_Position, obj.m_LinearVelocity, obj.m_Force * obj.m_InvMass⟩ 0 dt
    let o1 := { obj with m_Position := state.position, m_LinearVelocity := state.velocity }
    let o2 := { o1 with m_LinearVelocity := o1.m_LinearVelocity * damping }
    let o3 := updateAngularVelocity dt damping o2
    updateOrientation X dt o3
  | IntegrationType.RUNGE_KUTTA_4 =>
    let state := X.RK4 ⟨obj.m_Position, obj.m_LinearVelocity, obj.m_Force * obj.m_InvMass⟩ 0 dt
    let o1 := { obj with m_Position := state.position, m_LinearVelocity := state.velocity }
    let o2 := { o1 with m_LinearVelocity := o1.m_LinearVelocity * damping }
    let o3 := updateAngularVelocity dt damping o2
    updateOrientation X dt o3

/-- The member function `UpdatePhysicsObject`: a static or sleeping body is skipped; any other
body gets gravity, the selected scheme, both cache flags raised, and the rest test. -/
def UpdatePhysicsObject (X : Externals H D K) (e : LumosPhysicsEngine H K)
    (obj : PhysicsObject3D) : PhysicsObject3D :=
  if !obj.GetIsStatic && obj.IsAwake then
    let damping := e.m_DampingFactor
    let o1 := applyGravity e.m_Gravity e.s_UpdateTimestep obj
    let o2 := integrate X e.m_IntegrationType e.s_UpdateTimestep damping o1
    let o3 := { o2 with m_wsTransformInvalidated := true, m_wsAabbInvalidated := true }
    X.RestTest o3
  else obj

/-- The member function `UpdatePhysicsObjects`: the job system runs `UpdatePhysicsObject` once for
every index of `m_PhysicsObjects` and waits. The jobs are taken in index order. -/
def UpdatePhysicsObjects (X : Externals H D K) (e : LumosPhysicsEngine H K) :
    LumosPhysicsEngine H K :=
  { e with
    world := e.m_PhysicsObjects.foldl
      (fun w r => w.modifyBody r (UpdatePhysicsObject X e)) e.world }

/-- The member function `BroadPhaseCollisions`: the pair list is cleared, then filled by the
detector when one is installed. -/
def BroadPhaseCollisions (e : LumosPhysicsEngine H K) : LumosPhysicsEngine H K :=
  let e1 := { e with m_BroadphaseCollisionPairs := [] }
  match e1.m_BroadphaseDetection with
  | some detect =>
    { e1 with m_BroadphaseCollisionPairs := detect e1.m_PhysicsObjects e1.world }
  | none => e1

/-- What the narrowphase loop carries from one pair to the next: the local `colData`, the world,
and `m_Manifolds`. -/
structure NarrowState (H D K : Type) where
  colData : D
  world : World H
  manifolds : List (Manifold K)

/-- The body of the `for` loop of `NarrowPhaseCollisions`, for the pair `cp`. -/
def narrowPhasePair (X : Externals H D K) (cp : CollisionPair) (st : NarrowState H D K) :
    NarrowState H D K :=
  match (st.world.bodies cp.pObjectA).GetCollisionShape,
        (st.world.bodies cp.pObjectB).GetCollisionShape with
  | some shapeA, some shapeB =>
    let chk := X.CheckCollision cp.pObjectA cp.pObjectB shapeA shapeB st.colData st.world
    if chk.1 then
      let okA := X.FireOnCollisionEvent cp.pObjectA cp.pObjectB chk.2.2
      let okB := X.FireOnCollisionEvent cp.pObjectB cp.pObjectA okA.2
      if okA.1 && okB.1 then
        let built := X.BuildCollisionManifold cp.pObjectA cp.pObjectB shapeA shapeB chk.2.1 okB.2
        match built.1 with
        | some k =>
          let manifold : Manifold K := ⟨cp.pObjectA, cp.pObjectB, k⟩
          let w1 := X.FireOnCollisionManifoldCallback cp.pObjectA cp.pObjectB manifold built.2
          let w2 := X.FireOnCollisionManifoldCallback cp.pObjectB cp.pObjectA manifold w1
          ⟨chk.2.1, w2, st.manifolds ++ [manifold]⟩
        | none => ⟨chk.2.1, built.2, st.manifolds⟩
      else ⟨chk.2.1, okB.2, st.manifolds⟩
    else ⟨chk.2.1, chk.2.2, st.manifolds⟩
  | _, _ => st

/-- The `for` loop of `NarrowPhaseCollisions` over the pairs still to visit. -/
def narrowPhaseLoop (X : Externals H D K) :
    List CollisionPair → NarrowState H D K → NarrowState H D K
  | [], st => st
  | cp :: rest, st => narrowPhaseLoop X rest (narrowPhasePair X cp st)

/-- The member function `NarrowPhaseCollisions`. -/
def NarrowPhaseCollisions (X : Externals H D K) (e : LumosPhysicsEngine H K) :
    LumosPhysicsEngine H K :=
  if !e.m_BroadphaseCollisionPairs.isEmpty then
    let st := narrowPhaseLoop X e.m_BroadphaseCollisionPairs
      ⟨X.defaultCollisionData, e.world, e.m_Manifolds⟩
    { e with world := st.world, m_Manifolds := st.manifolds }
  else e

/-- One pass of the solver: `ApplyImpulse` on every manifold, then on every constraint. -/
def solverPass (X : Externals H D K) (ms : List (Manifold K)) (cs : List ConstraintRef)
    (w : World H) : World H :=
  cs.foldl (fun w c => X.ConstraintApplyImpulse c w)
    (ms.foldl (fun w m => X.ManifoldApplyImpulse m w) w)

/-- The loop `for (i = 0; i < SOLVER_ITERATIONS; ++i)`, with `n` passes still to run. -/
def solverLoop (X : Externals H D K) (ms : List (Manifold K)) (cs : List ConstraintRef) :
    ℕ → World H → World H
  | 0, w => w
  | n + 1, w => solverLoop X ms cs n (solverPass X ms cs w)

/-- The member function `SolveConstraints`, on the world. -/
def solveConstraintsWorld (X : Externals H D K) (ms : List (Manifold K))
    (cs : List ConstraintRef) (dt : ℚ) (w : World H) : World H :=
  let w1 := ms.foldl (fun w m => X.ManifoldPreSolverStep m dt w) w
  let w2 := cs.foldl (fun w c => X.ConstraintPreSolverStep c dt w) w1
  solverLoop X ms cs X.SOLVER_ITERATIONS w2

/-- The member function `SolveConstraints`. -/
def SolveConstraints (X : Externals H D K) (e : LumosPhysicsEngine H K) :
    LumosPhysicsEngine H K :=
  { e with
    world := solveConstraintsWorld X e.m_Manifolds e.m_Constraints e.s_UpdateTimestep e.world }

/-- The scene pass of `UpdatePhysics`: every entity with a `Physics3DComponent` contributes its
body, in visiting order. -/
def gatherPhysicsObjects (scene : Scene) : List ObjRef :=
  scene.foldl
    (fun objs entity =>
      match entity.physics3D with
      | some phy3D => objs ++ [phy3D]
      | none => objs) []

/-- The member function `UpdatePhysics`: one simulation step. -/
def UpdatePhysics (X : Externals H D K) (e : LumosPhysicsEngine H K) (scene : Scene) :
    LumosPhysicsEngine H K :=
  let e1 := { e with m_PhysicsObjects := [], m_Manifolds := [], steps := e.steps + 1 }
  let e2 := { e1 with m_PhysicsObjects := gatherPhysicsObjects scene }
  let e3 := BroadPhaseCollisions e2
  let e4 := NarrowPhaseCollisions X e3
  let e5 := SolveConstraints X e4
  UpdatePhysicsObjects X e5

/-- The local constant `max_updates_per_frame` of `OnUpdate`. -/
def max_updates_per_frame : ℕ := 5

/-- The text handed to `LUMOS_LOG_CRITICAL` on overload. -/
def overloadMessage : String := "Physics too slow to run in real time!"

/-- The catch-up loop of `OnUpdate`,
`for (i = 0; m_UpdateAccum >= s_UpdateTimestep && i < max_updates_per_frame; ++i)`,
with `n = max_updates_per_frame - i` iterations still allowed. -/
def updateLoop (X : Externals H D K) (scene : Scene) :
    ℕ → LumosPhysicsEngine H K → LumosPhysicsEngine H K
  | 0, e => e
  | n + 1, e =>
    if e.m_UpdateAccum ≥ e.s_UpdateTimestep then
      updateLoop X scene n
        (UpdatePhysics X { e with m_UpdateAccum := e.m_UpdateAccum - e.s_UpdateTimestep } scene)
    else e

/-- The member function `OnUpdate`; `dt` is `timeStep->GetSeconds()`. -/
def OnUpdate (X : Externals H D K) (e : LumosPhysicsEngine H K) (dt : ℚ) (scene : Scene) :
    LumosPhysicsEngine H K :=
  if !e.m_IsPaused then
    if e.m_MultipleUpdates then
      let e1 := { e with m_UpdateAccum := e.m_UpdateAccum + dt }
      let e2 := updateLoop X scene max_updates_per_frame e1
      if e2.m_UpdateAccum ≥ e2.s_UpdateTimestep then
        { e2 with log := e2.log ++ [overloadMessage], m_UpdateAccum := 0 }
      else e2
    else
      UpdatePhysics X { e with s_UpdateTimestep := dt } scene
  else e

/-! ## Sample data -/

/-- A body at the origin, at rest, dynamic and awake, with unit inverse mass and no shape. -/
def unitBody : PhysicsObject3D :=
  { m_Position := ⟨0, 0, 0⟩
    m_LinearVelocity := ⟨0, 0, 0⟩
    m_Force := ⟨0, 0, 0⟩
    m_InvMass := 1
    m_Orientation := ⟨0, 0, 0, 1⟩
    m_AngularVelocity := ⟨0, 0, 0⟩
    m_Torque := ⟨0, 0, 0⟩
    m_InvInertia := ⟨⟨1, 0, 0⟩, ⟨0, 1, 0⟩, ⟨0, 0, 1⟩⟩
    m_Static := false
    m_Awake := true
    m_wsTransformInvalidated := false
    m_wsAabbInvalidated := false
    m_CollisionShape := none }

/-- Collaborators that do nothing: callbacks agree, detection and manifold construction succeed,
the solver and the rest test leave everything as it is. -/
def inertExternals : Externals Unit Unit Unit :=
  { QuaternionMulVector3 := fun q _ => q
    QuaternionNormalise := fun q => q
    RK2 := fun s _ _ => s
    RK4 := fun s _ _ => s
    RestTest := fun o => o
    FireOnCollisionEvent := fun _ _ w => (true, w)
    FireOnCollisionManifoldCallback := fun _ _ _ w => w
    defaultCollisionData := ()
    CheckCollision := fun _ _ _ _ d w => (true, d, w)
    BuildCollisionManifold := fun _ _ _ _ _ w => (some (), w)
    SOLVER_ITERATIONS := 50
    ManifoldPreSolverStep := fun _ _ w => w
    ManifoldApplyImpulse := fun _ w => w
    ConstraintPreSolverStep := fun _ _ w => w
    ConstraintApplyImpulse := fun _ w => w }

/-- A world in which every reference leads to a copy of `unitBody`. -/
def uniformWorld : World Unit := ⟨fun _ => unitBody, ()⟩

/-- A freshly constructed accumulator-mode engine that has been resumed. -/
def runningEngine : LumosPhysicsEngine Unit Unit :=
  { LumosPhysicsEngine.construct true uniformWorld with m_IsPaused := false }

/-- The resumed engine with the step size set to 1/64: a power of two, so that every sum and
difference of a few multiples of it is computed without rounding in `float` as well. -/
def dyadicEngine : LumosPhysicsEngine Unit Unit :=
  { runningEngine with s_UpdateTimestep := 1 / 64 }

/-! ## Host frames -/

/-- One host frame: the pause flag the host has set before the tick, the elapsed time, and the
scene handed to `OnUpdate`. -/
structure Tick where
  paused : Bool
  dt : ℚ
  scene : Scene

/-- One host frame: `SetPaused(t.paused)` followed by `OnUpdate`. -/
def tick (X : Externals H D K) (e : LumosPhysicsEngine H K) (t : Tick) : LumosPhysicsEngine H K :=
  OnUpdate X { e with m_IsPaused := t.paused } t.dt t.scene

/-- A finite sequence of host frames, in order. -/
def runTicks (X : Externals H D K) (e : LumosPhysicsEngine H K) (ticks : List Tick) :
    LumosPhysicsEngine H K :=
  ticks.foldl (tick X) e

/-- A body with inverse mass 0 whose static flag is clear: awake, moving along x. -/
def kinematicBody : PhysicsObject3D :=
  { unitBody with m_InvMass := 0, m_LinearVelocity := ⟨1, 0, 0⟩ }

/-- The unit body with a force of 60 along x accumulated on it. -/
def pushedBody : PhysicsObject3D :=
  { unitBody with m_Force := ⟨60, 0, 0⟩ }

/-- The unit body moving along x at unit speed, with no force or torque on it. -/
def driftingBody : PhysicsObject3D :=
  { unitBody with m_LinearVelocity := ⟨1, 0, 0⟩ }

/-- The resumed default engine switched to explicit Euler. -/
def explicitEulerEngine : LumosPhysicsEngine Unit Unit :=
  { runningEngine with m_IntegrationType := IntegrationType.EXPLICIT_EULER }

/-- The resumed default engine switched to semi-implicit Euler. -/
def semiImplicitEngine : LumosPhysicsEngine Unit Unit :=
  { runningEngine with m_IntegrationType := IntegrationType.SEMI_IMPLICIT_EULER }

/-- The semi-implicit engine with gravity switched off. -/
def zeroGravityEngine : LumosPhysicsEngine Unit Unit :=
  { semiImplicitEngine with m_Gravity := ⟨0, 0, 0⟩ }

/-- The semi-implicit Euler velocity update as the spec words it: the velocity is updated from
gravity and from the accumulated force times the inverse mass, then damped. -/
def specSemiImplicitVelocity (v g F : Vector3) (w d h : ℚ) : Vector3 :=
  (v + g * h + F * w * h) * d

/-! ## The solver call sequence -/

/-- One call made by the solver on a manifold or a constraint. -/
inductive SolverCall (K : Type) where
  | ManifoldPreSolverStep (m : Manifold K) (dt : ℚ)
  | ConstraintPreSolverStep (c : ConstraintRef) (dt : ℚ)
  | ManifoldApplyImpulse (m : Manifold K)
  | ConstraintApplyImpulse (c : ConstraintRef)
deriving DecidableEq, Repr

/-- Performs one solver call on the world. -/
def SolverCall.run (X : Externals H D K) : SolverCall K → World H → World H
  | SolverCall.ManifoldPreSolverStep m dt, w => X.ManifoldPreSolverStep m dt w
  | SolverCall.ConstraintPreSolverStep c dt, w => X.ConstraintPreSolverStep c dt w
  | SolverCall.ManifoldApplyImpulse m, w => X.ManifoldApplyImpulse m w
  | SolverCall.ConstraintApplyImpulse c, w => X.ConstraintApplyImpulse c w

/-- One impulse pass as the spec words it: every manifold, then every constraint. -/
def impulsePassCalls (ms : List (Manifold K)) (cs : List ConstraintRef) : List (SolverCall K) :=
  ms.map SolverCall.ManifoldApplyImpulse ++ cs.map SolverCall.ConstraintApplyImpulse

/-- The call sequence the spec prescribes for the solver: pre-solve every manifold, then every
constraint, then `iterations` identical impulse passes. -/
def solverCallSequence (iterations : ℕ) (ms : List (Manifold K)) (cs : List ConstraintRef)
    (dt : ℚ) : List (SolverCall K) :=
  ms.map (fun m => SolverCall.ManifoldPreSolverStep m dt)
    ++ cs.map (fun c => SolverCall.ConstraintPreSolverStep c dt)
    ++ (List.replicate iterations (impulsePassCalls ms cs)).flatten

/-! ## The narrowphase filter -/

/-- The narrowphase filter as the spec words it, for a pair reached with local data `colData` in
world `w`: both bodies have a collision shape, the overlap test confirms the collision, both
collision callbacks return true, and manifold construction succeeds. -/
def passesNarrowphaseFilter (X : Externals H D K) (cp : CollisionPair) (colData : D)
    (w : World H) : Bool :=
  match (w.bodies cp.pObjectA).GetCollisionShape, (w.bodies cp.pObjectB).GetCollisionShape with
  | some shapeA, some shapeB =>
    let chk := X.CheckCollision cp.pObjectA cp.pObjectB shapeA shapeB colData w
    let okA := X.FireOnCollisionEvent cp.pObjectA cp.pObjectB chk.2.2
    let okB := X.FireOnCollisionEvent cp.pObjectB cp.pObjectA okA.2
    let built := X.BuildCollisionManifold cp.pObjectA cp.pObjectB shapeA shapeB chk.2.1 okB.2
    chk.1 && okA.1 && okB.1 && built.1.isSome
  | _, _ => false

/-- The pairs that pass the filter in a run of the narrowphase loop from state `st`, each judged
in the state the loop reaches it in, in visiting order. -/
def acceptedPairs (X : Externals H D K) :
    List CollisionPair → NarrowState H D K → List CollisionPair
  | [], _ => []
  | cp :: rest, st =>
    (if passesNarrowphaseFilter X cp st.colData st.world then [cp] else [])
      ++ acceptedPairs X rest (narrowPhasePair X cp st)

/-- A world in which every reference leads to a copy of `unitBody` carrying shape 0. -/
def shapedWorld : World Unit := ⟨fun _ => { unitBody with m_CollisionShape := some 0 }, ()⟩

/-- The explicit Euler position update as the spec words it: the position advances with the
velocity the body had at the start of the integration call. -/
def specExplicitEulerPosition (p v : Vector3) (h : ℚ) : Vector3 :=
  p + v * h

/-! ## The update loop -/

section Frame
variable (X : Externals H D K) (e : LumosPhysicsEngine H K) (scene : Scene)

/-- A simulation step leaves the accumulator, the step size, the two mode flags and the log
alone, and counts as one step. -/
theorem UpdatePhysics_frame :
    (UpdatePhysics X e scene).m_UpdateAccum = e.m_UpdateAccum ∧
    (UpdatePhysics X e scene).s_UpdateTimestep = e.s_UpdateTimestep ∧
    (UpdatePhysics X e scene).m_IsPaused = e.m_IsPaused ∧
    (UpdatePhysics X e scene).m_MultipleUpdates = e.m_MultipleUpdates ∧
    (UpdatePhysics X e scene).log = e.log ∧
    (UpdatePhysics X e scene).steps = e.steps + 1 := by
  simp only [UpdatePhysics, UpdatePhysicsObjects, SolveConstraints, NarrowPhaseCollisions,
    BroadPhaseCollisions]
  split <;> split <;> simp

end Frame

/-- What the catch-up loop leaves alone, and how the accumulator relates to the steps it ran. -/
theorem updateLoop_frame (X : Externals H D K) (scene : Scene) (n : ℕ) :
    ∀ e : LumosPhysicsEngine H K,
      (updateLoop X scene n e).s_UpdateTimestep = e.s_UpdateTimestep ∧
      (updateLoop X scene n e).m_IsPaused = e.m_IsPaused ∧
      (updateLoop X scene n e).m_MultipleUpdates = e.m_MultipleUpdates ∧
      (updateLoop X scene n e).log = e.log ∧
      e.steps ≤ (updateLoop X scene n e).steps ∧
      (updateLoop X scene n e).m_UpdateAccum =
        e.m_UpdateAccum -
          (((updateLoop X scene n e).steps - e.steps : ℕ) : ℚ) * e.s_UpdateTimestep := by
  induction n with
  | zero => intro e; simp [updateLoop]
  | succ n ih =>
    intro e
    by_cases hc : e.m_UpdateAccum ≥ e.s_UpdateTimestep
    · obtain ⟨f1, f2, f3, f4, f5, f6⟩ := UpdatePhysics_frame X
        { e with m_UpdateAccum := e.m_UpdateAccum - e.s_UpdateTimestep } scene
      obtain ⟨i1, i2, i3, i4, i5, i6⟩ := ih
        (UpdatePhysics X { e with m_UpdateAccum := e.m_UpdateAccum - e.s_UpdateTimestep } scene)
      simp only [] at f1 f2 f3 f4 f5 f6
      simp only [updateLoop, hc, if_true]
      generalize updateLoop X scene n (UpdatePhysics X
        { e with m_UpdateAccum := e.m_UpdateAccum - e.s_UpdateTimestep } scene) = r at *
      generalize UpdatePhysics X
        { e with m_UpdateAccum := e.m_UpdateAccum - e.s_UpdateTimestep } scene = u at *
      rw [f6] at i5 i6
      refine ⟨by rw [i1, f2], by rw [i2, f3], by rw [i3, f4], by rw [i4, f5], by omega, ?_⟩
      rw [i6, f1, f2]
      have hk : r.steps - e.steps = (r.steps - (e.steps + 1)) + 1 := by omega
      rw [hk]
      push_cast
      ring
    · simp [updateLoop, hc]

/-- The number of steps the catch-up loop runs. -/
theorem updateLoop_steps (X : Externals H D K) (scene : Scene) (n : ℕ) :
    ∀ e : LumosPhysicsEngine H K, 0 < e.s_UpdateTimestep → 0 ≤ e.m_UpdateAccum →
      (updateLoop X scene n e).steps =
        e.steps + min n ⌊e.m_UpdateAccum / e.s_UpdateTimestep⌋₊ := by
  induction n with
  | zero => intro e _ _; simp [updateLoop]
  | succ n ih =>
    intro e hh ha
    by_cases hc : e.m_UpdateAccum ≥ e.s_UpdateTimestep
    · obtain ⟨f1, f2, -, -, -, f6⟩ := UpdatePhysics_frame X
        { e with m_UpdateAccum := e.m_UpdateAccum - e.s_UpdateTimestep } scene
      simp only [] at f1 f2 f6
      have hsub : 0 ≤ e.m_UpdateAccum - e.s_UpdateTimestep := sub_nonneg.mpr hc
      have := ih (UpdatePhysics X
        { e with m_UpdateAccum := e.m_UpdateAccum - e.s_UpdateTimestep } scene)
        (by rw [f2]; exact hh) (by rw [f1]; exact hsub)
      simp only [updateLoop, hc, if_true]
      rw [this, f1, f2, f6]
      have hfl : ⌊e.m_UpdateAccum / e.s_UpdateTimestep⌋₊
          = ⌊(e.m_UpdateAccum - e.s_UpdateTimestep) / e.s_UpdateTimestep⌋₊ + 1 := by
        rw [← Nat.floor_add_one (div_nonneg hsub hh.le)]
        congr 1
        field_simp
      rw [hfl]
      omega
    · have hlt : e.m_UpdateAccum / e.s_UpdateTimestep < 1 := by
        rw [div_lt_one hh]; exact not_le.mp hc
      have hz : ⌊e.m_UpdateAccum / e.s_UpdateTimestep⌋₊ = 0 := Nat.floor_eq_zero.mpr hlt
      simp [updateLoop, hc, hz]

/-- The running, accumulator-mode branch of `OnUpdate`. -/
theorem OnUpdate_accumulator (X : Externals H D K) (e : LumosPhysicsEngine H K) (dt : ℚ)
    (scene : Scene) (hrun : e.m_IsPaused = false) (hmode : e.m_MultipleUpdates = true) :
    OnUpdate X e dt scene =
      if (updateLoop X scene max_updates_per_frame
            { e with m_UpdateAccum := e.m_UpdateAccum + dt }).m_UpdateAccum ≥ e.s_UpdateTimestep then
        { updateLoop X scene max_updates_per_frame
            { e with m_UpdateAccum := e.m_UpdateAccum + dt } with
          log := e.log ++ [overloadMessage], m_UpdateAccum := 0 }
      else
        updateLoop X scene max_updates_per_frame
          { e with m_UpdateAccum := e.m_UpdateAccum + dt } := by
  obtain ⟨g1, -, -, g4, -, -⟩ := updateLoop_frame X scene max_updates_per_frame
    { e with m_UpdateAccum := e.m_UpdateAccum + dt }
  simp only [] at g1 g4
  unfold OnUpdate
  rw [if_pos (by simp [hrun]), if_pos hmode]
  simp only [g1, g4]

/-- Claim C1: a running engine in accumulator mode with step size `h > 0`, accumulator `a ≥ 0` and
elapsed time `dt ≥ 0` runs exactly `min 5 ⌊(a + dt) / h⌋` simulation steps in one `OnUpdate`. -/
theorem C1_onUpdate_step_count (X : Externals H D K) (e : LumosPhysicsEngine H K) (dt : ℚ)
    (scene : Scene) (hrun : e.m_IsPaused = false) (hmode : e.m_MultipleUpdates = true)
    (hh : 0 < e.s_UpdateTimestep) (ha : 0 ≤ e.m_UpdateAccum) (hdt : 0 ≤ dt) :
    (OnUpdate X e dt scene).steps =
      e.steps + min 5 ⌊(e.m_UpdateAccum + dt) / e.s_UpdateTimestep⌋₊ := by
  have hs := updateLoop_steps X scene max_updates_per_frame
    { e with m_UpdateAccum := e.m_UpdateAccum + dt } hh (add_nonneg ha hdt)
  rw [OnUpdate_accumulator X e dt scene hrun hmode]
  split_ifs
  · exact hs
  · exact hs
/-- The catch-up loop never drives a non-negative accumulator below zero. -/
theorem updateLoop_nonneg (X : Externals H D K) (scene : Scene) (n : ℕ) :
    ∀ e : LumosPhysicsEngine H K, 0 ≤ e.m_UpdateAccum →
      0 ≤ (updateLoop X scene n e).m_UpdateAccum := by
  induction n with
  | zero => intro e ha; simpa [updateLoop] using ha
  | succ n ih =>
    intro e ha
    by_cases hc : e.m_UpdateAccum ≥ e.s_UpdateTimestep
    · obtain ⟨f1, -, -, -, -, -⟩ := UpdatePhysics_frame X
        { e with m_UpdateAccum := e.m_UpdateAccum - e.s_UpdateTimestep } scene
      simp only [] at f1
      simp only [updateLoop, hc, if_true]
      exact ih _ (by rw [f1]; exact sub_nonneg.mpr hc)
    · simpa [updateLoop, hc] using ha

/-- One accumulator-mode tick re-establishes `0 ≤ m_UpdateAccum < s_UpdateTimestep`. -/
theorem OnUpdate_accum_bounds (X : Externals H D K) (e : LumosPhysicsEngine H K) (dt : ℚ)
    (scene : Scene) (hmode : e.m_MultipleUpdates = true) (hh : 0 < e.s_UpdateTimestep)
    (ha : 0 ≤ e.m_UpdateAccum) (hb : e.m_UpdateAccum < e.s_UpdateTimestep) (hdt : 0 ≤ dt) :
    (OnUpdate X e dt scene).m_MultipleUpdates = true ∧
    (OnUpdate X e dt scene).s_UpdateTimestep = e.s_UpdateTimestep ∧
    0 ≤ (OnUpdate X e dt scene).m_UpdateAccum ∧
    (OnUpdate X e dt scene).m_UpdateAccum < e.s_UpdateTimestep := by
  cases hp : e.m_IsPaused with
  | true =>
    have : OnUpdate X e dt scene = e := by simp [OnUpdate, hp]
    rw [this]
    exact ⟨hmode, rfl, ha, hb⟩
  | false =>
    obtain ⟨g1, -, g3, -, -, -⟩ := updateLoop_frame X scene max_updates_per_frame
      { e with m_UpdateAccum := e.m_UpdateAccum + dt }
    have g0 := updateLoop_nonneg X scene max_updates_per_frame
      { e with m_UpdateAccum := e.m_UpdateAccum + dt } (add_nonneg ha hdt)
    simp only [] at g1 g3
    rw [OnUpdate_accumulator X e dt scene hp hmode]
    split_ifs with hc
    · exact ⟨by rw [g3, hmode], g1, le_refl _, hh⟩
    · exact ⟨by rw [g3, hmode], g1, g0, not_le.mp hc⟩

/-- The accumulator invariant is kept by any sequence of ticks. -/
theorem runTicks_accum_bounds (X : Externals H D K) (ticks : List Tick) :
    ∀ e : LumosPhysicsEngine H K, e.m_MultipleUpdates = true → 0 < e.s_UpdateTimestep →
      0 ≤ e.m_UpdateAccum → e.m_UpdateAccum < e.s_UpdateTimestep →
      (∀ t ∈ ticks, 0 ≤ t.dt) →
      (runTicks X e ticks).s_UpdateTimestep = e.s_UpdateTimestep ∧
      0 ≤ (runTicks X e ticks).m_UpdateAccum ∧
      (runTicks X e ticks).m_UpdateAccum < e.s_UpdateTimestep := by
  induction ticks with
  | nil => intro e _ _ ha hb _; exact ⟨rfl, ha, hb⟩
  | cons t rest ih =>
    intro e hmode hh ha hb hdt
    obtain ⟨k1, k2, k3, k4⟩ := OnUpdate_accum_bounds X { e with m_IsPaused := t.paused } t.dt
      t.scene hmode hh ha hb (hdt t (List.mem_cons_self _ _))
    simp only [] at k2 k4
    have := ih (tick X e t) k1 (by rw [tick, k2]; exact hh) k3 (by rw [tick, k2]; exact k4)
      (fun t' ht' => hdt t' (List.mem_cons_of_mem _ ht'))
    simp only [tick] at this
    simp only [runTicks, List.foldl_cons, tick]
    rw [k2] at this
    exact this

/-- Claim C2: from the constructed engine (accumulator 0) in accumulator mode with step size
`h > 0`, after every prefix of any sequence of ticks with non-negative elapsed times, paused or
running in any mix, the accumulator is non-negative and below `h`. -/
theorem C2_accumulator_invariant (X : Externals H D K) (w : World H) (h : ℚ) (ticks : List Tick)
    (hh : 0 < h) (hdt : ∀ t ∈ ticks, 0 ≤ t.dt) (n : ℕ) :
    0 ≤ (runTicks X { (LumosPhysicsEngine.construct true w : LumosPhysicsEngine H K) with
          s_UpdateTimestep := h } (ticks.take n)).m_UpdateAccum ∧
    (runTicks X { (LumosPhysicsEngine.construct true w : LumosPhysicsEngine H K) with
          s_UpdateTimestep := h } (ticks.take n)).m_UpdateAccum < h := by
  have := runTicks_accum_bounds X (ticks.take n)
    { (LumosPhysicsEngine.construct true w : LumosPhysicsEngine H K) with s_UpdateTimestep := h }
    rfl hh (le_refl _) hh (fun t ht => hdt t (List.mem_of_mem_take ht))
  exact this.2

/-- Claim C3, amended: in one running accumulator-mode tick that ran `k` steps, in exact
arithmetic, if what is left after the capped steps, `a + dt - k * h`, is at least one step
(`≥ h`), the accumulator becomes exactly 0, the overload message is logged and the engine stays
running; if it is below one step, the accumulator equals `a + dt - k * h`, nothing is logged and
the engine stays running. -/
theorem C3_overload_policy (X : Externals H D K) (e : LumosPhysicsEngine H K) (dt : ℚ)
    (scene : Scene) (hrun : e.m_IsPaused = false) (hmode : e.m_MultipleUpdates = true) :
    (e.m_UpdateAccum + dt
        - (((OnUpdate X e dt scene).steps - e.steps : ℕ) : ℚ) * e.s_UpdateTimestep
        ≥ e.s_UpdateTimestep →
      (OnUpdate X e dt scene).m_UpdateAccum = 0 ∧
      (OnUpdate X e dt scene).log = e.log ++ [overloadMessage] ∧
      (OnUpdate X e dt scene).m_IsPaused = false) ∧
    (e.m_UpdateAccum + dt
        - (((OnUpdate X e dt scene).steps - e.steps : ℕ) : ℚ) * e.s_UpdateTimestep
        < e.s_UpdateTimestep →
      (OnUpdate X e dt scene).m_UpdateAccum =
        e.m_UpdateAccum + dt
          - (((OnUpdate X e dt scene).steps - e.steps : ℕ) : ℚ) * e.s_UpdateTimestep ∧
      (OnUpdate X e dt scene).log = e.log ∧
      (OnUpdate X e dt scene).m_IsPaused = false) := by
  obtain ⟨-, g2, -, g4, -, g6⟩ := updateLoop_frame X scene max_updates_per_frame
    { e with m_UpdateAccum := e.m_UpdateAccum + dt }
  simp only [] at g2 g4 g6
  rw [OnUpdate_accumulator X e dt scene hrun hmode]
  split_ifs with hc
  · simp only []
    rw [← g6]
    exact ⟨fun _ => ⟨trivial, trivial, by rw [g2, hrun]⟩, fun hlt => absurd hc (not_le.mpr hlt)⟩
  · rw [← g6]
    exact ⟨fun hge => absurd hge hc, fun _ => ⟨rfl, g4, by rw [g2, hrun]⟩⟩
/-- Closed form of one running accumulator-mode tick: the steps run, the accumulator and the
log afterwards. -/
theorem OnUpdate_accumulator_result (X : Externals H D K) (e : LumosPhysicsEngine H K) (dt : ℚ)
    (scene : Scene) (hrun : e.m_IsPaused = false) (hmode : e.m_MultipleUpdates = true)
    (hh : 0 < e.s_UpdateTimestep) (ha : 0 ≤ e.m_UpdateAccum) (hdt : 0 ≤ dt) :
    (OnUpdate X e dt scene).steps =
      e.steps + min 5 ⌊(e.m_UpdateAccum + dt) / e.s_UpdateTimestep⌋₊ ∧
    (OnUpdate X e dt scene).m_UpdateAccum =
      (if e.m_UpdateAccum + dt
            - ((min 5 ⌊(e.m_UpdateAccum + dt) / e.s_UpdateTimestep⌋₊ : ℕ) : ℚ) * e.s_UpdateTimestep
            ≥ e.s_UpdateTimestep then 0
        else e.m_UpdateAccum + dt
            - ((min 5 ⌊(e.m_UpdateAccum + dt) / e.s_UpdateTimestep⌋₊ : ℕ) : ℚ)
              * e.s_UpdateTimestep) ∧
    (OnUpdate X e dt scene).log =
      (if e.m_UpdateAccum + dt
            - ((min 5 ⌊(e.m_UpdateAccum + dt) / e.s_UpdateTimestep⌋₊ : ℕ) : ℚ) * e.s_UpdateTimestep
            ≥ e.s_UpdateTimestep then e.log ++ [overloadMessage]
        else e.log) := by
  have hs := updateLoop_steps X scene max_updates_per_frame
    { e with m_UpdateAccum := e.m_UpdateAccum + dt } hh (add_nonneg ha hdt)
  obtain ⟨-, -, -, g4, -, g6⟩ := updateLoop_frame X scene max_updates_per_frame
    { e with m_UpdateAccum := e.m_UpdateAccum + dt }
  simp only [] at hs g4 g6
  rw [hs, Nat.add_sub_cancel_left] at g6
  rw [OnUpdate_accumulator X e dt scene hrun hmode]
  by_cases hc : e.m_UpdateAccum + dt
      - ((min 5 ⌊(e.m_UpdateAccum + dt) / e.s_UpdateTimestep⌋₊ : ℕ) : ℚ) * e.s_UpdateTimestep
      ≥ e.s_UpdateTimestep
  · rw [if_pos (by rw [g6]; exact hc), if_pos hc, if_pos hc]
    exact ⟨hs, rfl, rfl⟩
  · rw [if_neg (by rw [g6]; exact hc), if_neg hc, if_neg hc]
    exact ⟨hs, g6, g4⟩

/-- With nothing accumulated, a step of 1/64 and 6/64 elapsed, five steps run and exactly one
step is left: the tick ends with the accumulator reset and the overload logged. -/
theorem OnUpdate_six_steps_due (X : Externals H D K) (e : LumosPhysicsEngine H K)
    (scene : Scene) (hrun : e.m_IsPaused = false) (hmode : e.m_MultipleUpdates = true)
    (hstep : e.s_UpdateTimestep = 1 / 64) (hacc : e.m_UpdateAccum = 0) :
    (OnUpdate X e (6 / 64) scene).steps = e.steps + 5 ∧
    (OnUpdate X e (6 / 64) scene).m_UpdateAccum = 0 ∧
    (OnUpdate X e (6 / 64) scene).log = e.log ++ [overloadMessage] := by
  obtain ⟨r1, r2, r3⟩ := OnUpdate_accumulator_result X e (6 / 64) scene hrun hmode
    (by rw [hstep]; norm_num) (by rw [hacc]) (by norm_num)
  have hfl : ⌊((0 : ℚ) + 6 / 64) / (1 / 64)⌋₊ = 6 := by
    have : ((0 : ℚ) + 6 / 64) / (1 / 64) = ((6 : ℕ) : ℚ) := by norm_num
    rw [this, Nat.floor_natCast]
  have hmin : min 5 6 = 5 := by decide
  rw [hacc, hstep, hfl, hmin] at r1 r2 r3
  refine ⟨r1, ?_, ?_⟩
  · rw [r2]; norm_num
  · rw [r3]; norm_num

/-- Counterexample to C3 as stated: the resumed engine with step 1/64 and accumulator 0, given
6/64 s elapsed, runs five steps and is left with exactly one step, 1/64, which does not exceed
one step; the claim then promises that no time is dropped and nothing is reported, but the code
resets the accumulator and logs the overload. All values involved are multiples of 1/64 below 1,
so the same holds when the arithmetic is done in `float`. -/
theorem C3_counterexample_exact_step_left :
    ¬ ((dyadicEngine.m_UpdateAccum + 6 / 64
          - (((OnUpdate inertExternals dyadicEngine (6 / 64) []).steps - dyadicEngine.steps : ℕ) : ℚ)
            * dyadicEngine.s_UpdateTimestep
          > dyadicEngine.s_UpdateTimestep →
        (OnUpdate inertExternals dyadicEngine (6 / 64) []).m_UpdateAccum = 0 ∧
        (OnUpdate inertExternals dyadicEngine (6 / 64) []).log
          = dyadicEngine.log ++ [overloadMessage]) ∧
      (¬ (dyadicEngine.m_UpdateAccum + 6 / 64
          - (((OnUpdate inertExternals dyadicEngine (6 / 64) []).steps - dyadicEngine.steps : ℕ) : ℚ)
            * dyadicEngine.s_UpdateTimestep
          > dyadicEngine.s_UpdateTimestep) →
        (OnUpdate inertExternals dyadicEngine (6 / 64) []).m_UpdateAccum
          = dyadicEngine.m_UpdateAccum + 6 / 64
            - (((OnUpdate inertExternals dyadicEngine (6 / 64) []).steps - dyadicEngine.steps : ℕ) : ℚ)
              * dyadicEngine.s_UpdateTimestep ∧
        (OnUpdate inertExternals dyadicEngine (6 / 64) []).log = dyadicEngine.log)) := by
  obtain ⟨r1, r2, r3⟩ := OnUpdate_six_steps_due inertExternals dyadicEngine [] rfl rfl rfl rfl
  have hacc : dyadicEngine.m_UpdateAccum = 0 := rfl
  have hstep : dyadicEngine.s_UpdateTimestep = 1 / 64 := rfl
  rw [r1, r2, r3, hacc, hstep, Nat.add_sub_cancel_left]
  rintro ⟨-, h2⟩
  have h3 := (h2 (by norm_num)).1
  norm_num at h3

/-- Claim C10: with the pause flag set, `OnUpdate` returns the engine state unchanged for every
elapsed time and in either update mode (no step is run, no field is touched); the constructor
and `SetDefaults` leave the engine paused, so any run of ticks on the constructed engine without
a resume leaves it as constructed. -/
theorem C10_paused_tick_is_identity (X : Externals H D K) :
    (∀ (e : LumosPhysicsEngine H K) (dt : ℚ) (scene : Scene),
      e.m_IsPaused = true → OnUpdate X e dt scene = e) ∧
    (∀ (multipleUpdates : Bool) (w : World H),
      (LumosPhysicsEngine.construct multipleUpdates w : LumosPhysicsEngine H K).m_IsPaused = true) ∧
    (∀ e : LumosPhysicsEngine H K, e.SetDefaults.m_IsPaused = true) ∧
    (∀ (multipleUpdates : Bool) (w : World H) (frames : List (ℚ × Scene)),
      frames.foldl (fun e f => OnUpdate X e f.1 f.2)
          (LumosPhysicsEngine.construct multipleUpdates w : LumosPhysicsEngine H K)
        = LumosPhysicsEngine.construct multipleUpdates w) := by
  have hid : ∀ (e : LumosPhysicsEngine H K) (dt : ℚ) (scene : Scene),
      e.m_IsPaused = true → OnUpdate X e dt scene = e := by
    intro e dt scene hp
    simp [OnUpdate, hp]
  refine ⟨hid, fun _ _ => rfl, fun _ => rfl, ?_⟩
  intro mu w frames
  induction frames with
  | nil => rfl
  | cons f rest ih => rw [List.foldl_cons, hid _ _ _ rfl]; exact ih

/-- Witness for C10: a tick of 1/10 s on the constructed engine. -/
theorem C10_paused_tick_is_identity_witness :
    (LumosPhysicsEngine.construct true uniformWorld : LumosPhysicsEngine Unit Unit).m_IsPaused = true ∧
    OnUpdate inertExternals (LumosPhysicsEngine.construct true uniformWorld) (1 / 10) [⟨some 0⟩]
      = LumosPhysicsEngine.construct true uniformWorld :=
  ⟨rfl, (C10_paused_tick_is_identity inertExternals).1 _ _ _ rfl⟩

/-- Witness for C1: the resumed default engine with 1/20 s elapsed. -/
theorem C1_onUpdate_step_count_witness :
    (OnUpdate inertExternals runningEngine (1 / 20) []).steps
      = runningEngine.steps
        + min 5 ⌊(runningEngine.m_UpdateAccum + 1 / 20) / runningEngine.s_UpdateTimestep⌋₊ :=
  C1_onUpdate_step_count inertExternals runningEngine (1 / 20) [] rfl rfl
    (by show (0 : ℚ) < 1 / 60; norm_num) (by show (0 : ℚ) ≤ 0; norm_num) (by norm_num)

/-- Witness for C2: a running tick of 1/10 s followed by a paused tick of 1 s. -/
theorem C2_accumulator_invariant_witness :
    (0 : ℚ) < 1 / 60 ∧
    0 ≤ (runTicks inertExternals
          { (LumosPhysicsEngine.construct true uniformWorld : LumosPhysicsEngine Unit Unit) with
            s_UpdateTimestep := 1 / 60 }
          (List.take 2 [⟨false, 1 / 10, []⟩, ⟨true, 1, []⟩])).m_UpdateAccum ∧
    (runTicks inertExternals
          { (LumosPhysicsEngine.construct true uniformWorld : LumosPhysicsEngine Unit Unit) with
            s_UpdateTimestep := 1 / 60 }
          (List.take 2 [⟨false, 1 / 10, []⟩, ⟨true, 1, []⟩])).m_UpdateAccum < 1 / 60 :=
  ⟨by norm_num,
   C2_accumulator_invariant inertExternals uniformWorld (1 / 60)
    [⟨false, 1 / 10, []⟩, ⟨true, 1, []⟩] (by norm_num)
    (by
      intro t ht
      simp only [List.mem_cons, List.mem_singleton, List.not_mem_nil, or_false] at ht
      rcases ht with rfl | rfl <;> norm_num) 2⟩

/-- Witness for C3: the resumed engine with step 1/64 and 6/64 s elapsed. -/
theorem C3_overload_policy_witness :
    dyadicEngine.m_IsPaused = false ∧ dyadicEngine.m_MultipleUpdates = true ∧
    (dyadicEngine.m_UpdateAccum + 6 / 64
        - (((OnUpdate inertExternals dyadicEngine (6 / 64) []).steps - dyadicEngine.steps : ℕ) : ℚ)
          * dyadicEngine.s_UpdateTimestep
        ≥ dyadicEngine.s_UpdateTimestep →
      (OnUpdate inertExternals dyadicEngine (6 / 64) []).m_UpdateAccum = 0 ∧
      (OnUpdate inertExternals dyadicEngine (6 / 64) []).log
        = dyadicEngine.log ++ [overloadMessage] ∧
      (OnUpdate inertExternals dyadicEngine (6 / 64) []).m_IsPaused = false) :=
  ⟨rfl, rfl, (C3_overload_policy inertExternals dyadicEngine (6 / 64) [] rfl rfl).1⟩

/-! ## The integrator -/

/-- Sum of vectors, component by component. -/
theorem Vector3_add_eq (a b : Vector3) : a + b = ⟨a.x + b.x, a.y + b.y, a.z + b.z⟩ := rfl

/-- Scaling of a vector, component by component. -/
theorem Vector3_mul_eq (a : Vector3) (s : ℚ) : a * s = ⟨a.x * s, a.y * s, a.z * s⟩ := rfl

/-- A body whose static flag is set, or that is asleep, is returned as it is. -/
theorem UpdatePhysicsObject_skipped (X : Externals H D K) (e : LumosPhysicsEngine H K)
    (o : PhysicsObject3D) (h : o.GetIsStatic = true ∨ o.IsAwake = false) :
    UpdatePhysicsObject X e o = o := by
  unfold UpdatePhysicsObject
  rcases h with h | h <;> simp [h]

/-- Claim C4, amended: a body whose static flag is set (`GetIsStatic()`), whatever its inverse
mass, is returned unchanged by `UpdatePhysicsObject` under every scheme, gravity, damping and
step size, and so by any number of calls with any engine settings; in particular its position and
orientation are unchanged. -/
theorem C4_static_flag_invariance (X : Externals H D K) (es : List (LumosPhysicsEngine H K))
    (o : PhysicsObject3D) (hs : o.GetIsStatic = true) :
    es.foldl (fun b e => UpdatePhysicsObject X e b) o = o ∧
    (es.foldl (fun b e => UpdatePhysicsObject X e b) o).m_Position = o.m_Position ∧
    (es.foldl (fun b e => UpdatePhysicsObject X e b) o).m_Orientation = o.m_Orientation := by
  have key : es.foldl (fun b e => UpdatePhysicsObject X e b) o = o := by
    induction es with
    | nil => rfl
    | cons e rest ih =>
      rw [List.foldl_cons, UpdatePhysicsObject_skipped X e o (Or.inl hs)]
      exact ih
  rw [key]
  exact ⟨rfl, rfl, rfl⟩

/-- Witness for C4: three calls under three schemes on a body flagged static. -/
theorem C4_static_flag_invariance_witness :
    ({ kinematicBody with m_Static := true } : PhysicsObject3D).GetIsStatic = true ∧
    (List.foldl (fun b e => UpdatePhysicsObject inertExternals e b)
        ({ kinematicBody with m_Static := true } : PhysicsObject3D)
        [explicitEulerEngine, semiImplicitEngine, runningEngine]).m_Position
      = ({ kinematicBody with m_Static := true } : PhysicsObject3D).m_Position :=
  ⟨rfl, (C4_static_flag_invariance inertExternals
    [explicitEulerEngine, semiImplicitEngine, runningEngine]
    { kinematicBody with m_Static := true } rfl).2.1⟩

/-- Counterexample to C4 as stated: a body with inverse mass 0 whose static flag is clear, awake
and moving at unit speed along x, starts at the origin and is displaced by one call, under
explicit Euler and under semi-implicit Euler. -/
theorem C4_counterexample_zero_inverse_mass_moves :
    kinematicBody.m_InvMass = 0 ∧
    kinematicBody.m_Position = ⟨0, 0, 0⟩ ∧
    (UpdatePhysicsObject inertExternals explicitEulerEngine kinematicBody).m_Position
      = ⟨1 / 60, 0, 0⟩ ∧
    (UpdatePhysicsObject inertExternals semiImplicitEngine kinematicBody).m_Position
      = ⟨333 / 20000, 0, 0⟩ := by
  refine ⟨rfl, rfl, ?_, ?_⟩
  · simp [UpdatePhysicsObject, integrate, applyGravity, updateOrientation, updateAngularVelocity,
      explicitEulerEngine, runningEngine, LumosPhysicsEngine.construct, kinematicBody, unitBody,
      inertExternals, PhysicsObject3D.GetIsStatic, PhysicsObject3D.IsAwake, Vector3_add_eq,
      Vector3_mul_eq]
  · simp [UpdatePhysicsObject, integrate, applyGravity, updateOrientation, updateAngularVelocity,
      semiImplicitEngine, runningEngine, LumosPhysicsEngine.construct, kinematicBody, unitBody,
      inertExternals, PhysicsObject3D.GetIsStatic, PhysicsObject3D.IsAwake, Vector3_add_eq,
      Vector3_mul_eq]
    norm_num

/-- What `UpdatePhysicsObject` computes under `SEMI_IMPLICIT_EULER` for a dynamic, awake body of
positive inverse mass, up to the rest test: the velocity after gravity is scaled by
`1 + m_InvMass * dt` and damped (the accumulated force is not read), and the position advances
with the new velocity. -/
theorem UpdatePhysicsObject_semi_implicit (X : Externals H D K) (e : LumosPhysicsEngine H K)
    (o : PhysicsObject3D) (hs : o.GetIsStatic = false) (ha : o.IsAwake = true)
    (hw : 0 < o.m_InvMass) (hty : e.m_IntegrationType = IntegrationType.SEMI_IMPLICIT_EULER) :
    ∃ b : PhysicsObject3D, UpdatePhysicsObject X e o = X.RestTest b ∧
      b.m_LinearVelocity =
        ((o.m_LinearVelocity + e.m_Gravity * e.s_UpdateTimestep)
          + (o.m_LinearVelocity + e.m_Gravity * e.s_UpdateTimestep) * o.m_InvMass
              * e.s_UpdateTimestep) * e.m_DampingFactor ∧
      b.m_Position = o.m_Position + b.m_LinearVelocity * e.s_UpdateTimestep ∧
      b.m_InvMass = o.m_InvMass ∧ b.m_Static = o.m_Static ∧ b.m_Force = o.m_Force := by
  refine ⟨{ integrate X e.m_IntegrationType e.s_UpdateTimestep e.m_DampingFactor
      (applyGravity e.m_Gravity e.s_UpdateTimestep o) with
      m_wsTransformInvalidated := true, m_wsAabbInvalidated := true }, ?_, ?_⟩
  · unfold UpdatePhysicsObject
    rw [if_pos (by simp [hs, ha])]
  · simp [hty, integrate, applyGravity, hw, updateOrientation, updateAngularVelocity]

/-- Claim C5 fails on the code: for the unit body at rest with a force of 60 along x, default
gravity, damping 0.999 and step 1/60, the claimed velocity `(v + g*h + F*w*h) * d` has x component
0.999, while `UpdatePhysicsObject` under `SEMI_IMPLICIT_EULER` leaves the x component at 0: the
statement marked `v = u + at` adds `m_LinearVelocity * m_InvMass * dt`, not
`m_Force * m_InvMass * dt`. -/
theorem C5_semi_implicit_step_ignores_force :
    (UpdatePhysicsObject inertExternals semiImplicitEngine pushedBody).m_LinearVelocity
      = ⟨0, -6642351 / 40000000, 0⟩ ∧
    specSemiImplicitVelocity pushedBody.m_LinearVelocity semiImplicitEngine.m_Gravity
        pushedBody.m_Force pushedBody.m_InvMass semiImplicitEngine.m_DampingFactor
        semiImplicitEngine.s_UpdateTimestep
      = ⟨999 / 1000, -326673 / 2000000, 0⟩ ∧
    (UpdatePhysicsObject inertExternals semiImplicitEngine pushedBody).m_LinearVelocity
      ≠ specSemiImplicitVelocity pushedBody.m_LinearVelocity semiImplicitEngine.m_Gravity
          pushedBody.m_Force pushedBody.m_InvMass semiImplicitEngine.m_DampingFactor
          semiImplicitEngine.s_UpdateTimestep := by
  have hcode : (UpdatePhysicsObject inertExternals semiImplicitEngine
      pushedBody).m_LinearVelocity = ⟨0, -6642351 / 40000000, 0⟩ := by
    simp [UpdatePhysicsObject, integrate, applyGravity, updateOrientation, updateAngularVelocity,
      semiImplicitEngine, runningEngine, LumosPhysicsEngine.construct, pushedBody, unitBody,
      inertExternals, PhysicsObject3D.GetIsStatic, PhysicsObject3D.IsAwake, Vector3_add_eq,
      Vector3_mul_eq]
    norm_num
  have hspec : specSemiImplicitVelocity pushedBody.m_LinearVelocity semiImplicitEngine.m_Gravity
      pushedBody.m_Force pushedBody.m_InvMass semiImplicitEngine.m_DampingFactor
      semiImplicitEngine.s_UpdateTimestep = ⟨999 / 1000, -326673 / 2000000, 0⟩ := by
    simp [specSemiImplicitVelocity, semiImplicitEngine, runningEngine,
      LumosPhysicsEngine.construct, pushedBody, unitBody, Vector3_add_eq, Vector3_mul_eq]
    norm_num
  refine ⟨hcode, hspec, ?_⟩
  rw [hcode, hspec]
  intro h
  have hx := congrArg Vector3.x h
  norm_num at hx

/-- Claim C6 fails on the code: with no gravity, force or torque, step 1/60 and damping 0.999,
one `UpdatePhysicsObject` step under `SEMI_IMPLICIT_EULER` takes the unit body from squared speed
1 to 412617969/400000000, which is larger. -/
theorem C6_semi_implicit_step_gains_energy :
    zeroGravityEngine.m_Gravity = ⟨0, 0, 0⟩ ∧ driftingBody.m_Force = ⟨0, 0, 0⟩ ∧
    driftingBody.m_Torque = ⟨0, 0, 0⟩ ∧ (0 : ℚ) < zeroGravityEngine.s_UpdateTimestep ∧
    0 ≤ zeroGravityEngine.m_DampingFactor ∧ zeroGravityEngine.m_DampingFactor < 1 ∧
    driftingBody.m_LinearVelocity.LengthSquared = 1 ∧
    (UpdatePhysicsObject inertExternals zeroGravityEngine driftingBody).m_LinearVelocity.LengthSquared
      = 412617969 / 400000000 ∧
    driftingBody.m_LinearVelocity.LengthSquared
      < (UpdatePhysicsObject inertExternals zeroGravityEngine
          driftingBody).m_LinearVelocity.LengthSquared := by
  have hbefore : driftingBody.m_LinearVelocity.LengthSquared = 1 := by
    simp [driftingBody, unitBody, Vector3.LengthSquared]
  have hafter : (UpdatePhysicsObject inertExternals zeroGravityEngine
      driftingBody).m_LinearVelocity.LengthSquared = 412617969 / 400000000 := by
    simp [UpdatePhysicsObject, integrate, applyGravity, updateOrientation, updateAngularVelocity,
      zeroGravityEngine, semiImplicitEngine, runningEngine, LumosPhysicsEngine.construct,
      driftingBody, unitBody, inertExternals, PhysicsObject3D.GetIsStatic,
      PhysicsObject3D.IsAwake, Vector3_add_eq, Vector3_mul_eq, Vector3.LengthSquared]
    norm_num
  refine ⟨rfl, rfl, rfl, ?_, ?_, ?_, hbefore, hafter, ?_⟩
  · show (0 : ℚ) < 1 / 60; norm_num
  · show (0 : ℚ) ≤ 999 / 1000; norm_num
  · show (999 / 1000 : ℚ) < 1; norm_num
  · rw [hbefore, hafter]; norm_num

/-- Damping by a factor in `[0, 1)` does not lengthen a vector. -/
theorem LengthSquared_scale_le (v : Vector3) (d : ℚ) (hd0 : 0 ≤ d) (hd1 : d < 1) :
    (v * d).LengthSquared ≤ v.LengthSquared := by
  have hdd : d * d ≤ 1 := by nlinarith
  have hx := mul_nonneg (sub_nonneg.mpr hdd) (mul_self_nonneg v.x)
  have hy := mul_nonneg (sub_nonneg.mpr hdd) (mul_self_nonneg v.y)
  have hz := mul_nonneg (sub_nonneg.mpr hdd) (mul_self_nonneg v.z)
  simp only [Vector3_mul_eq, Vector3.LengthSquared]
  nlinarith

/-- The part of the energy bound that the code meets: under `EXPLICIT_EULER`, with no gravity, force
or torque and a damping factor in `[0, 1)`, neither the linear nor the angular velocity grows, and
under `SEMI_IMPLICIT_EULER` the angular velocity does not grow, provided the rest test leaves both
velocities alone. -/
theorem energy_bound_met (X : Externals H D K) (e : LumosPhysicsEngine H K) (o : PhysicsObject3D)
    (hRest : ∀ p : PhysicsObject3D, (X.RestTest p).m_LinearVelocity = p.m_LinearVelocity ∧
      (X.RestTest p).m_AngularVelocity = p.m_AngularVelocity)
    (hs : o.GetIsStatic = false) (ha : o.IsAwake = true) (hw : 0 < o.m_InvMass)
    (hg : e.m_Gravity = ⟨0, 0, 0⟩) (hF : o.m_Force = ⟨0, 0, 0⟩) (hT : o.m_Torque = ⟨0, 0, 0⟩)
    (hd0 : 0 ≤ e.m_DampingFactor) (hd1 : e.m_DampingFactor < 1) :
    (e.m_IntegrationType = IntegrationType.EXPLICIT_EULER →
      (UpdatePhysicsObject X e o).m_LinearVelocity.LengthSquared
          ≤ o.m_LinearVelocity.LengthSquared ∧
      (UpdatePhysicsObject X e o).m_AngularVelocity.LengthSquared
          ≤ o.m_AngularVelocity.LengthSquared) ∧
    (e.m_IntegrationType = IntegrationType.SEMI_IMPLICIT_EULER →
      (UpdatePhysicsObject X e o).m_AngularVelocity.LengthSquared
          ≤ o.m_AngularVelocity.LengthSquared) := by
  have hang : (o.m_AngularVelocity + (o.m_InvInertia * o.m_Torque) * e.s_UpdateTimestep)
      = o.m_AngularVelocity := by
    rw [hT]
    show Vector3.add _ (Vector3.scale (Matrix3.mulVec _ _) _) = _
    simp [Vector3.add, Vector3.scale, Matrix3.mulVec]
  have hlin : (o.m_LinearVelocity + e.m_Gravity * e.s_UpdateTimestep
      + o.m_Force * o.m_InvMass * e.s_UpdateTimestep) = o.m_LinearVelocity := by
    rw [hg, hF]
    simp [Vector3_add_eq, Vector3_mul_eq]
  constructor
  · intro hty
    unfold UpdatePhysicsObject
    rw [if_pos (by simp [hs, ha])]
    simp only [(hRest _).1, (hRest _).2]
    simp only [hty, integrate, applyGravity, hw, if_true, updateOrientation,
      updateAngularVelocity, hang, hlin]
    exact ⟨LengthSquared_scale_le _ _ hd0 hd1, LengthSquared_scale_le _ _ hd0 hd1⟩
  · intro hty
    unfold UpdatePhysicsObject
    rw [if_pos (by simp [hs, ha])]
    simp only [(hRest _).2]
    simp only [hty, integrate, applyGravity, hw, if_true, updateOrientation,
      updateAngularVelocity, hang]
    exact LengthSquared_scale_le _ _ hd0 hd1

/-- One semi-implicit step of a dynamic, awake body of positive inverse mass, when the rest test
leaves velocity, inverse mass and static flag alone: the vertical velocity, and what is kept. -/
theorem semi_implicit_vertical_step (X : Externals H D K) (e : LumosPhysicsEngine H K)
    (b : PhysicsObject3D)
    (hRest : ∀ p : PhysicsObject3D, (X.RestTest p).m_LinearVelocity = p.m_LinearVelocity ∧
      (X.RestTest p).m_InvMass = p.m_InvMass ∧ (X.RestTest p).m_Static = p.m_Static)
    (hs : b.GetIsStatic = false) (ha : b.IsAwake = true) (hw : 0 < b.m_InvMass)
    (hty : e.m_IntegrationType = IntegrationType.SEMI_IMPLICIT_EULER) :
    (UpdatePhysicsObject X e b).m_LinearVelocity.y =
      (1 + b.m_InvMass * e.s_UpdateTimestep) * e.m_DampingFactor
        * (b.m_LinearVelocity.y + e.m_Gravity.y * e.s_UpdateTimestep) ∧
    (UpdatePhysicsObject X e b).m_InvMass = b.m_InvMass ∧
    (UpdatePhysicsObject X e b).GetIsStatic = false := by
  obtain ⟨r, hr, hv, -, hm, hst, -⟩ := UpdatePhysicsObject_semi_implicit X e b hs ha hw hty
  obtain ⟨q1, q2, q3⟩ := hRest r
  rw [hr]
  refine ⟨?_, by rw [q2, hm], ?_⟩
  · rw [q1, hv]
    simp only [Vector3_add_eq, Vector3_mul_eq]
    ring
  · unfold PhysicsObject3D.GetIsStatic at hs ⊢
    rw [q3, hst, hs]

/-- Claim C7: a dynamic body of positive inverse mass starting at rest, under gravity
`(0, -9.81, 0)`, positive damping and step 1/60, integrated with `SEMI_IMPLICIT_EULER`, has a
strictly smaller vertical velocity after `m` steps than after `n` steps whenever `n < m`, as long
as it is awake at each of the steps and the rest test leaves velocity, inverse mass and static
flag alone. -/
theorem C7_free_fall_monotone (X : Externals H D K) (e : LumosPhysicsEngine H K)
    (o : PhysicsObject3D) (n m : ℕ)
    (hRest : ∀ p : PhysicsObject3D, (X.RestTest p).m_LinearVelocity = p.m_LinearVelocity ∧
      (X.RestTest p).m_InvMass = p.m_InvMass ∧ (X.RestTest p).m_Static = p.m_Static)
    (hawake : ∀ k, k < m → ((UpdatePhysicsObject X e)^[k] o).IsAwake = true)
    (hty : e.m_IntegrationType = IntegrationType.SEMI_IMPLICIT_EULER)
    (hg : e.m_Gravity = ⟨0, -981 / 100, 0⟩) (hd : 0 < e.m_DampingFactor)
    (hh : e.s_UpdateTimestep = 1 / 60)
    (hs : o.GetIsStatic = false) (hw : 0 < o.m_InvMass)
    (hv : o.m_LinearVelocity = ⟨0, 0, 0⟩) (_hF : o.m_Force = ⟨0, 0, 0⟩)
    (hnm : n < m) :
    ((UpdatePhysicsObject X e)^[m] o).m_LinearVelocity.y
      < ((UpdatePhysicsObject X e)^[n] o).m_LinearVelocity.y := by
  -- what every state of the fall keeps
  have hkeep : ∀ k, k ≤ m → ((UpdatePhysicsObject X e)^[k] o).GetIsStatic = false ∧
      ((UpdatePhysicsObject X e)^[k] o).m_InvMass = o.m_InvMass := by
    intro k
    induction k with
    | zero => intro _; exact ⟨hs, rfl⟩
    | succ k ih =>
      intro hk
      obtain ⟨i1, i2⟩ := ih (by omega)
      obtain ⟨-, s2, s3⟩ := semi_implicit_vertical_step X e _ hRest i1 (hawake k (by omega))
        (by rw [i2]; exact hw) hty
      rw [Function.iterate_succ_apply']
      exact ⟨s3, by rw [s2, i2]⟩
  -- the recurrence of the vertical velocity
  have hc : 0 < (1 + o.m_InvMass * e.s_UpdateTimestep) * e.m_DampingFactor := by
    rw [hh]; positivity
  have hrec : ∀ k, k < m → ((UpdatePhysicsObject X e)^[k + 1] o).m_LinearVelocity.y =
      (1 + o.m_InvMass * e.s_UpdateTimestep) * e.m_DampingFactor
        * (((UpdatePhysicsObject X e)^[k] o).m_LinearVelocity.y
            + e.m_Gravity.y * e.s_UpdateTimestep) := by
    intro k hk
    obtain ⟨i1, i2⟩ := hkeep k (by omega)
    obtain ⟨s1, -, -⟩ := semi_implicit_vertical_step X e _ hRest i1 (hawake k hk)
      (by rw [i2]; exact hw) hty
    rw [Function.iterate_succ_apply', s1, i2]
  -- each step makes the vertical velocity strictly smaller
  have hdec : ∀ k, k < m → ((UpdatePhysicsObject X e)^[k + 1] o).m_LinearVelocity.y
      < ((UpdatePhysicsObject X e)^[k] o).m_LinearVelocity.y := by
    intro k
    induction k with
    | zero =>
      intro hk
      rw [hrec 0 hk, Function.iterate_zero_apply, hv, hg, hh]
      have : (0 : ℚ) + -981 / 100 * (1 / 60) < 0 := by norm_num
      exact mul_neg_of_pos_of_neg (by rw [hh] at hc; exact hc) this
    | succ k ih =>
      intro hk
      have h1 := ih (by omega)
      rw [hrec (k + 1) hk]
      rw [hrec k (by omega)] at h1 ⊢
      exact mul_lt_mul_of_pos_left (by linarith) hc
  -- chain the steps from n up to m
  have hchain : ∀ j, n < j → j ≤ m → ((UpdatePhysicsObject X e)^[j] o).m_LinearVelocity.y
      < ((UpdatePhysicsObject X e)^[n] o).m_LinearVelocity.y := by
    intro j
    induction j with
    | zero => intro h0; omega
    | succ j ih =>
      intro h1 h2
      rcases Nat.lt_or_ge n j with hlt | hge
      · exact lt_trans (hdec j (by omega)) (ih hlt (by omega))
      · have : j = n := by omega
        subst this
        exact hdec j (by omega)
  exact hchain m hnm (le_refl m)

/-- Under the inert collaborators a body stays as awake as it was. -/
theorem inert_keeps_awake (e : LumosPhysicsEngine Unit Unit) (k : ℕ) :
    ∀ o : PhysicsObject3D, o.IsAwake = true →
      ((UpdatePhysicsObject inertExternals e)^[k] o).IsAwake = true := by
  induction k with
  | zero => intro o h; exact h
  | succ k ih =>
    intro o h
    rw [Function.iterate_succ_apply]
    apply ih
    unfold UpdatePhysicsObject
    split
    · cases hty : e.m_IntegrationType <;>
        simpa [integrate, applyGravity, updateOrientation, updateAngularVelocity, inertExternals,
          PhysicsObject3D.IsAwake, hty, apply_ite] using h
    · exact h

/-- Witness for C7: the unit body after 60 steps and after 30 steps. -/
theorem C7_free_fall_monotone_witness :
    ((UpdatePhysicsObject inertExternals semiImplicitEngine)^[60] unitBody).m_LinearVelocity.y
      < ((UpdatePhysicsObject inertExternals semiImplicitEngine)^[30] unitBody).m_LinearVelocity.y :=
  C7_free_fall_monotone inertExternals semiImplicitEngine unitBody 30 60
    (fun _ => ⟨rfl, rfl, rfl⟩)
    (fun k _ => inert_keeps_awake semiImplicitEngine k unitBody rfl)
    rfl rfl (by show (0 : ℚ) < 999 / 1000; norm_num) rfl rfl
    (by show (0 : ℚ) < 1; norm_num) rfl rfl (by norm_num)

/-! ## The solver -/

/-- Running a list of calls one after the other. -/
theorem foldl_run_append (X : Externals H D K) (xs ys : List (SolverCall K)) (w : World H) :
    (xs ++ ys).foldl (fun w c => c.run X w) w
      = ys.foldl (fun w c => c.run X w) (xs.foldl (fun w c => c.run X w) w) :=
  List.foldl_append _ _ _ _

/-- One pass of the code is the spec's pass. -/
theorem solverPass_eq_calls (X : Externals H D K) (ms : List (Manifold K))
    (cs : List ConstraintRef) (w : World H) :
    solverPass X ms cs w = (impulsePassCalls ms cs).foldl (fun w c => c.run X w) w := by
  unfold solverPass impulsePassCalls
  rw [List.foldl_append, List.foldl_map, List.foldl_map]
  rfl

/-- The iteration loop of the code runs the spec's pass `n` times. -/
theorem solverLoop_eq_calls (X : Externals H D K) (ms : List (Manifold K))
    (cs : List ConstraintRef) (n : ℕ) :
    ∀ w : World H, solverLoop X ms cs n w
      = ((List.replicate n (impulsePassCalls ms cs)).flatten).foldl (fun w c => c.run X w) w := by
  induction n with
  | zero => intro w; rfl
  | succ n ih =>
    intro w
    rw [solverLoop, ih, solverPass_eq_calls, List.replicate_succ, List.flatten_cons,
      List.foldl_append]

/-- Occurrences of a call in the impulse passes. -/
theorem count_join_replicate {α : Type} [DecidableEq α] (a : α) (l : List α) (n : ℕ) :
    ((List.replicate n l).flatten).count a = n * l.count a := by
  induction n with
  | zero => simp
  | succ n ih => rw [List.replicate_succ, List.flatten_cons, List.count_append, ih]; ring

/-- Claim C8: `SolveConstraints` changes the world exactly as running the prescribed call
sequence does, for every behaviour of the four callee methods: `PreSolverStep(s_UpdateTimestep)`
on each manifold in list order, then on each constraint in list order, then `SOLVER_ITERATIONS`
identical passes of `ApplyImpulse` on every manifold followed by every constraint. In that
sequence each manifold and constraint is pre-solved once per occurrence in its list and
impulse-applied `SOLVER_ITERATIONS` times per occurrence. -/
theorem C8_solver_call_order [DecidableEq K] (X : Externals H D K) (e : LumosPhysicsEngine H K) :
    SolveConstraints X e =
      { e with world :=
          (solverCallSequence X.SOLVER_ITERATIONS e.m_Manifolds e.m_Constraints
            e.s_UpdateTimestep).foldl (fun w c => c.run X w) e.world } ∧
    (∀ m : Manifold K,
      (solverCallSequence X.SOLVER_ITERATIONS e.m_Manifolds e.m_Constraints
          e.s_UpdateTimestep).count (SolverCall.ManifoldPreSolverStep m e.s_UpdateTimestep)
        = e.m_Manifolds.count m ∧
      (solverCallSequence X.SOLVER_ITERATIONS e.m_Manifolds e.m_Constraints
          e.s_UpdateTimestep).count (SolverCall.ManifoldApplyImpulse m)
        = X.SOLVER_ITERATIONS * e.m_Manifolds.count m) ∧
    (∀ c : ConstraintRef,
      (solverCallSequence X.SOLVER_ITERATIONS e.m_Manifolds e.m_Constraints
          e.s_UpdateTimestep).count (SolverCall.ConstraintPreSolverStep c e.s_UpdateTimestep)
        = e.m_Constraints.count c ∧
      (solverCallSequence X.SOLVER_ITERATIONS e.m_Manifolds e.m_Constraints
          e.s_UpdateTimestep).count (SolverCall.ConstraintApplyImpulse c)
        = X.SOLVER_ITERATIONS * e.m_Constraints.count c) := by
  have inj1 : Function.Injective
      (fun m : Manifold K => SolverCall.ManifoldPreSolverStep m e.s_UpdateTimestep) := by
    intro a b h; injection h
  have inj2 : Function.Injective (SolverCall.ManifoldApplyImpulse : Manifold K → SolverCall K) := by
    intro a b h; injection h
  have inj3 : Function.Injective
      (fun c : ConstraintRef =>
        (SolverCall.ConstraintPreSolverStep c e.s_UpdateTimestep : SolverCall K)) := by
    intro a b h; injection h
  have inj4 : Function.Injective
      (SolverCall.ConstraintApplyImpulse : ConstraintRef → SolverCall K) := by
    intro a b h; injection h
  have z : ∀ {α : Type} (f : α → SolverCall K) (l : List α) (a : SolverCall K),
      (∀ x, f x ≠ a) → (l.map f).count a = 0 := by
    intro α f l a hne
    rw [List.count_eq_zero]
    intro hmem
    obtain ⟨x, -, hx⟩ := List.mem_map.mp hmem
    exact hne x hx
  refine ⟨?_, fun m => ⟨?_, ?_⟩, fun c => ⟨?_, ?_⟩⟩
  · unfold SolveConstraints solveConstraintsWorld solverCallSequence
    simp only [List.foldl_append, List.foldl_map, solverLoop_eq_calls]
    rfl
  · unfold solverCallSequence
    rw [List.count_append, List.count_append, count_join_replicate]
    unfold impulsePassCalls
    rw [List.count_append, List.count_map_of_injective _ _ inj1,
      z _ e.m_Constraints _ (fun x h => by cases h),
      z SolverCall.ManifoldApplyImpulse e.m_Manifolds _ (fun x h => by cases h),
      z SolverCall.ConstraintApplyImpulse e.m_Constraints _ (fun x h => by cases h)]
    simp
  · unfold solverCallSequence
    rw [List.count_append, List.count_append, count_join_replicate]
    unfold impulsePassCalls
    rw [List.count_append, List.count_map_of_injective _ _ inj2,
      z (fun m => SolverCall.ManifoldPreSolverStep m e.s_UpdateTimestep) e.m_Manifolds _
        (fun x h => by cases h),
      z (fun c => SolverCall.ConstraintPreSolverStep c e.s_UpdateTimestep) e.m_Constraints _
        (fun x h => by cases h),
      z SolverCall.ConstraintApplyImpulse e.m_Constraints _ (fun x h => by cases h)]
    simp
  · unfold solverCallSequence
    rw [List.count_append, List.count_append, count_join_replicate]
    unfold impulsePassCalls
    rw [List.count_append, List.count_map_of_injective _ _ inj3,
      z (fun m => SolverCall.ManifoldPreSolverStep m e.s_UpdateTimestep) e.m_Manifolds _
        (fun x h => by cases h),
      z SolverCall.ManifoldApplyImpulse e.m_Manifolds _ (fun x h => by cases h),
      z SolverCall.ConstraintApplyImpulse e.m_Constraints _ (fun x h => by cases h)]
    simp
  · unfold solverCallSequence
    rw [List.count_append, List.count_append, count_join_replicate]
    unfold impulsePassCalls
    rw [List.count_append, List.count_map_of_injective _ _ inj4,
      z (fun m => SolverCall.ManifoldPreSolverStep m e.s_UpdateTimestep) e.m_Manifolds _
        (fun x h => by cases h),
      z (fun c => SolverCall.ConstraintPreSolverStep c e.s_UpdateTimestep) e.m_Constraints _
        (fun x h => by cases h),
      z SolverCall.ManifoldApplyImpulse e.m_Manifolds _ (fun x h => by cases h)]
    simp

/-! ## The narrowphase -/

/-- The loop body appends one manifold, carrying the pair, when the pair passes the filter, and
leaves the manifold list alone otherwise. -/
theorem narrowPhasePair_manifolds (X : Externals H D K) (cp : CollisionPair)
    (st : NarrowState H D K) :
    (passesNarrowphaseFilter X cp st.colData st.world = true →
      ∃ k : K, (narrowPhasePair X cp st).manifolds
        = st.manifolds ++ [⟨cp.pObjectA, cp.pObjectB, k⟩]) ∧
    (passesNarrowphaseFilter X cp st.colData st.world = false →
      (narrowPhasePair X cp st).manifolds = st.manifolds) := by
  unfold passesNarrowphaseFilter narrowPhasePair
  cases hA : (st.world.bodies cp.pObjectA).GetCollisionShape with
  | none => simp
  | some shapeA =>
    cases hB : (st.world.bodies cp.pObjectB).GetCollisionShape with
    | none => simp
    | some shapeB =>
      simp only []
      cases hc : (X.CheckCollision cp.pObjectA cp.pObjectB shapeA shapeB st.colData st.world).1 with
      | false => simp
      | true =>
        cases ha : (X.FireOnCollisionEvent cp.pObjectA cp.pObjectB
            (X.CheckCollision cp.pObjectA cp.pObjectB shapeA shapeB st.colData st.world).2.2).1 with
        | false => simp
        | true =>
          cases hb : (X.FireOnCollisionEvent cp.pObjectB cp.pObjectA
            (X.FireOnCollisionEvent cp.pObjectA cp.pObjectB
              (X.CheckCollision cp.pObjectA cp.pObjectB shapeA shapeB st.colData
                st.world).2.2).2).1 with
          | false => simp
          | true =>
            cases hk : (X.BuildCollisionManifold cp.pObjectA cp.pObjectB shapeA shapeB
              (X.CheckCollision cp.pObjectA cp.pObjectB shapeA shapeB st.colData st.world).2.1
              (X.FireOnCollisionEvent cp.pObjectB cp.pObjectA
                (X.FireOnCollisionEvent cp.pObjectA cp.pObjectB
                  (X.CheckCollision cp.pObjectA cp.pObjectB shapeA shapeB st.colData
                    st.world).2.2).2).2).1 with
            | none => simp
            | some k => simp

/-- The narrowphase loop appends, in visiting order, one manifold for each accepted pair. -/
theorem narrowPhaseLoop_manifolds (X : Externals H D K) (pairs : List CollisionPair) :
    ∀ st : NarrowState H D K, ∃ new : List (Manifold K),
      (narrowPhaseLoop X pairs st).manifolds = st.manifolds ++ new ∧
      new.map Manifold.pair = acceptedPairs X pairs st := by
  induction pairs with
  | nil => intro st; exact ⟨[], by simp [narrowPhaseLoop], rfl⟩
  | cons cp rest ih =>
    intro st
    obtain ⟨new, h1, h2⟩ := ih (narrowPhasePair X cp st)
    obtain ⟨p1, p2⟩ := narrowPhasePair_manifolds X cp st
    cases hp : passesNarrowphaseFilter X cp st.colData st.world with
    | true =>
      obtain ⟨k, hk⟩ := p1 hp
      refine ⟨⟨cp.pObjectA, cp.pObjectB, k⟩ :: new, ?_, ?_⟩
      · rw [narrowPhaseLoop, h1, hk, List.append_assoc, List.singleton_append]
      · simp [acceptedPairs, hp, h2, Manifold.pair]
    | false =>
      refine ⟨new, ?_, ?_⟩
      · rw [narrowPhaseLoop, h1, p2 hp]
      · simp [acceptedPairs, hp, h2]

/-- The accepted pairs are broadphase pairs, in broadphase order. -/
theorem acceptedPairs_sublist (X : Externals H D K) (pairs : List CollisionPair) :
    ∀ st : NarrowState H D K, (acceptedPairs X pairs st).Sublist pairs := by
  induction pairs with
  | nil => intro st; exact List.Sublist.slnil
  | cons cp rest ih =>
    intro st
    cases hp : passesNarrowphaseFilter X cp st.colData st.world with
    | true => simpa [acceptedPairs, hp] using ih (narrowPhasePair X cp st)
    | false =>
      simpa [acceptedPairs, hp] using List.Sublist.cons cp (ih (narrowPhasePair X cp st))

/-- The stages after the narrowphase keep the manifold list and the pair list. -/
theorem UpdatePhysics_lists (X : Externals H D K) (e : LumosPhysicsEngine H K) (scene : Scene) :
    (UpdatePhysics X e scene).m_Manifolds =
      (NarrowPhaseCollisions X (BroadPhaseCollisions
        ({ e with m_PhysicsObjects := gatherPhysicsObjects scene, m_Manifolds := [],
                  steps := e.steps + 1 } : LumosPhysicsEngine H K))).m_Manifolds ∧
    (UpdatePhysics X e scene).m_BroadphaseCollisionPairs =
      (BroadPhaseCollisions
        ({ e with m_PhysicsObjects := gatherPhysicsObjects scene, m_Manifolds := [],
                  steps := e.steps + 1 } : LumosPhysicsEngine H K)).m_BroadphaseCollisionPairs ∧
    (BroadPhaseCollisions
        ({ e with m_PhysicsObjects := gatherPhysicsObjects scene, m_Manifolds := [],
                  steps := e.steps + 1 } : LumosPhysicsEngine H K)).m_Manifolds = [] := by
  refine ⟨rfl, ?_, ?_⟩
  · simp only [UpdatePhysics, UpdatePhysicsObjects, SolveConstraints, NarrowPhaseCollisions]
    split <;> rfl
  · simp only [BroadPhaseCollisions]
    split <;> rfl

/-- Claim C9: with the overlap test, the callbacks and manifold construction arbitrary,
`NarrowPhaseCollisions` appends to `m_Manifolds` one manifold for each broadphase pair that passes
the filter (both shapes present, overlap confirmed, both callbacks true, construction succeeded)
and nothing for any other pair, in broadphase order, and leaves the pair list alone; so after a
simulation step every manifold's pair is among that step's broadphase pairs. -/
theorem C9_narrowphase_filter (X : Externals H D K) (e : LumosPhysicsEngine H K) :
    (∃ new : List (Manifold K),
      (NarrowPhaseCollisions X e).m_Manifolds = e.m_Manifolds ++ new ∧
      new.map Manifold.pair =
        acceptedPairs X e.m_BroadphaseCollisionPairs
          ⟨X.defaultCollisionData, e.world, e.m_Manifolds⟩ ∧
      (new.map Manifold.pair).Sublist e.m_BroadphaseCollisionPairs ∧
      ∀ m ∈ new, m.pair ∈ e.m_BroadphaseCollisionPairs) ∧
    (NarrowPhaseCollisions X e).m_BroadphaseCollisionPairs = e.m_BroadphaseCollisionPairs ∧
    (∀ (cp : CollisionPair) (st : NarrowState H D K),
      (passesNarrowphaseFilter X cp st.colData st.world = true →
        ∃ k : K, (narrowPhasePair X cp st).manifolds
          = st.manifolds ++ [⟨cp.pObjectA, cp.pObjectB, k⟩]) ∧
      (passesNarrowphaseFilter X cp st.colData st.world = false →
        (narrowPhasePair X cp st).manifolds = st.manifolds)) ∧
    (∀ (scene : Scene) (m : Manifold K), m ∈ (UpdatePhysics X e scene).m_Manifolds →
      m.pair ∈ (UpdatePhysics X e scene).m_BroadphaseCollisionPairs) := by
  have main : ∀ e : LumosPhysicsEngine H K, ∃ new : List (Manifold K),
      (NarrowPhaseCollisions X e).m_Manifolds = e.m_Manifolds ++ new ∧
      new.map Manifold.pair =
        acceptedPairs X e.m_BroadphaseCollisionPairs
          ⟨X.defaultCollisionData, e.world, e.m_Manifolds⟩ ∧
      (new.map Manifold.pair).Sublist e.m_BroadphaseCollisionPairs ∧
      ∀ m ∈ new, m.pair ∈ e.m_BroadphaseCollisionPairs := by
    intro e
    obtain ⟨new, h1, h2⟩ := narrowPhaseLoop_manifolds X e.m_BroadphaseCollisionPairs
      ⟨X.defaultCollisionData, e.world, e.m_Manifolds⟩
    have hsub : (new.map Manifold.pair).Sublist e.m_BroadphaseCollisionPairs := by
      rw [h2]; exact acceptedPairs_sublist X _ _
    have hmem : ∀ m ∈ new, m.pair ∈ e.m_BroadphaseCollisionPairs :=
      fun m hm => hsub.subset (List.mem_map_of_mem _ hm)
    cases hp : e.m_BroadphaseCollisionPairs with
    | nil =>
      refine ⟨[], ?_, ?_, List.Sublist.slnil, ?_⟩
      · simp [NarrowPhaseCollisions, hp]
      · simp [acceptedPairs]
      · intro m hm; cases hm
    | cons cp rest =>
      rw [hp] at h1 h2 hsub hmem
      refine ⟨new, ?_, h2, hsub, hmem⟩
      simpa [NarrowPhaseCollisions, hp] using h1
  refine ⟨main e, ?_, fun cp st => narrowPhasePair_manifolds X cp st, ?_⟩
  · unfold NarrowPhaseCollisions
    split <;> rfl
  · intro scene m hm
    obtain ⟨l1, l2, l3⟩ := UpdatePhysics_lists X e scene
    obtain ⟨new, h1, -, -, h4⟩ := main (BroadPhaseCollisions
      ({ e with m_PhysicsObjects := gatherPhysicsObjects scene, m_Manifolds := [],
                steps := e.steps + 1 } : LumosPhysicsEngine H K))
    rw [l1, h1, l3, List.nil_append] at hm
    rw [l2]
    exact h4 m hm

/-- Witness for C9: a pair of shaped bodies under collaborators that always agree. -/
theorem C9_narrowphase_filter_witness :
    passesNarrowphaseFilter inertExternals ⟨0, 1⟩ () shapedWorld = true ∧
    ∃ k : Unit, (narrowPhasePair inertExternals ⟨0, 1⟩ ⟨(), shapedWorld, []⟩).manifolds
      = [] ++ [⟨0, 1, k⟩] :=
  ⟨rfl, ((C9_narrowphase_filter inertExternals runningEngine).2.2.1 ⟨0, 1⟩
    ⟨(), shapedWorld, []⟩).1 rfl⟩

/-! ## The explicit Euler step -/

/-- What `UpdatePhysicsObject` computes under `EXPLICIT_EULER` for a dynamic, awake body, up to
the rest test: the position advances with the velocity left by the gravity statement, and the
velocity is then updated from the accumulated force and damped. -/
theorem UpdatePhysicsObject_explicit (X : Externals H D K) (e : LumosPhysicsEngine H K)
    (o : PhysicsObject3D) (hs : o.GetIsStatic = false) (ha : o.IsAwake = true)
    (hty : e.m_IntegrationType = IntegrationType.EXPLICIT_EULER) :
    ∃ b : PhysicsObject3D, UpdatePhysicsObject X e o = X.RestTest b ∧
      b.m_Position = o.m_Position
        + (applyGravity e.m_Gravity e.s_UpdateTimestep o).m_LinearVelocity * e.s_UpdateTimestep ∧
      b.m_LinearVelocity =
        ((applyGravity e.m_Gravity e.s_UpdateTimestep o).m_LinearVelocity
          + o.m_Force * o.m_InvMass * e.s_UpdateTimestep) * e.m_DampingFactor := by
  refine ⟨{ integrate X e.m_IntegrationType e.s_UpdateTimestep e.m_DampingFactor
      (applyGravity e.m_Gravity e.s_UpdateTimestep o) with
      m_wsTransformInvalidated := true, m_wsAabbInvalidated := true }, ?_, ?_⟩
  · unfold UpdatePhysicsObject
    rw [if_pos (by simp [hs, ha])]
  · by_cases hw : 0 < o.m_InvMass
    · simp [hty, integrate, applyGravity, hw, updateOrientation, updateAngularVelocity]
    · simp [hty, integrate, applyGravity, hw, updateOrientation, updateAngularVelocity]

/-- Claim C11, amended: for a dynamic, awake body under `EXPLICIT_EULER`, when the rest test
leaves position and velocity alone, the position advances with the velocity left by the gravity
statement that precedes the scheme: `p' = p + (v + g*h)*h` when the inverse mass is positive, and
`p' = p + v*h` when it is not or when gravity is zero; only afterwards is the velocity updated
from the accumulated force, and damped. -/
theorem C11_explicit_euler_step (X : Externals H D K) (e : LumosPhysicsEngine H K)
    (o : PhysicsObject3D)
    (hRest : ∀ b : PhysicsObject3D, (X.RestTest b).m_Position = b.m_Position ∧
      (X.RestTest b).m_LinearVelocity = b.m_LinearVelocity)
    (hs : o.GetIsStatic = false) (ha : o.IsAwake = true)
    (hty : e.m_IntegrationType = IntegrationType.EXPLICIT_EULER) :
    (0 < o.m_InvMass →
      (UpdatePhysicsObject X e o).m_Position =
        o.m_Position
          + (o.m_LinearVelocity + e.m_Gravity * e.s_UpdateTimestep) * e.s_UpdateTimestep ∧
      (UpdatePhysicsObject X e o).m_LinearVelocity =
        ((o.m_LinearVelocity + e.m_Gravity * e.s_UpdateTimestep)
          + o.m_Force * o.m_InvMass * e.s_UpdateTimestep) * e.m_DampingFactor) ∧
    (¬ 0 < o.m_InvMass →
      (UpdatePhysicsObject X e o).m_Position =
        specExplicitEulerPosition o.m_Position o.m_LinearVelocity e.s_UpdateTimestep ∧
      (UpdatePhysicsObject X e o).m_LinearVelocity =
        (o.m_LinearVelocity + o.m_Force * o.m_InvMass * e.s_UpdateTimestep)
          * e.m_DampingFactor) ∧
    (e.m_Gravity = ⟨0, 0, 0⟩ →
      (UpdatePhysicsObject X e o).m_Position =
        specExplicitEulerPosition o.m_Position o.m_LinearVelocity e.s_UpdateTimestep ∧
      (UpdatePhysicsObject X e o).m_LinearVelocity =
        (o.m_LinearVelocity + o.m_Force * o.m_InvMass * e.s_UpdateTimestep)
          * e.m_DampingFactor) := by
  obtain ⟨b, hb, hp, hv⟩ := UpdatePhysicsObject_explicit X e o hs ha hty
  obtain ⟨q1, q2⟩ := hRest b
  rw [hb, q1, q2, hp, hv]
  refine ⟨fun hw => ?_, fun hw => ?_, fun hg => ?_⟩
  · simp [applyGravity, hw]
  · simp [applyGravity, hw, specExplicitEulerPosition]
  · have hzero : o.m_LinearVelocity + (⟨0, 0, 0⟩ : Vector3) * e.s_UpdateTimestep
        = o.m_LinearVelocity := by
      simp [Vector3_add_eq, Vector3_mul_eq]
    by_cases hw : 0 < o.m_InvMass
    · simp [applyGravity, hw, hg, hzero, specExplicitEulerPosition]
    · simp [applyGravity, hw, specExplicitEulerPosition]

/-- Witness for C11: the unit body under default gravity. -/
theorem C11_explicit_euler_step_witness :
    (UpdatePhysicsObject inertExternals explicitEulerEngine unitBody).m_Position =
      unitBody.m_Position
        + (unitBody.m_LinearVelocity
            + explicitEulerEngine.m_Gravity * explicitEulerEngine.s_UpdateTimestep)
          * explicitEulerEngine.s_UpdateTimestep ∧
    (UpdatePhysicsObject inertExternals explicitEulerEngine unitBody).m_LinearVelocity =
      ((unitBody.m_LinearVelocity
          + explicitEulerEngine.m_Gravity * explicitEulerEngine.s_UpdateTimestep)
        + unitBody.m_Force * unitBody.m_InvMass * explicitEulerEngine.s_UpdateTimestep)
        * explicitEulerEngine.m_DampingFactor :=
  (C11_explicit_euler_step inertExternals explicitEulerEngine unitBody
    (fun _ => ⟨rfl, rfl⟩) rfl rfl rfl).1 (by show (0 : ℚ) < 1; norm_num)

/-- Counterexample to C11 as stated: the unit body, at rest at the origin, under default gravity
and step 1/60 would stay at the origin if the position advanced with its velocity at the start of
the call; the code moves it to `(0, -109/40000, 0)`, because gravity has been added to the
velocity before the position is advanced. -/
theorem C11_counterexample_gravity_moves_first :
    unitBody.GetIsStatic = false ∧ unitBody.IsAwake = true ∧
    specExplicitEulerPosition unitBody.m_Position unitBody.m_LinearVelocity
        explicitEulerEngine.s_UpdateTimestep = ⟨0, 0, 0⟩ ∧
    (UpdatePhysicsObject inertExternals explicitEulerEngine unitBody).m_Position
      = ⟨0, -109 / 40000, 0⟩ ∧
    (UpdatePhysicsObject inertExternals explicitEulerEngine unitBody).m_Position
      ≠ specExplicitEulerPosition unitBody.m_Position unitBody.m_LinearVelocity
          explicitEulerEngine.s_UpdateTimestep := by
  have hspec : specExplicitEulerPosition unitBody.m_Position unitBody.m_LinearVelocity
      explicitEulerEngine.s_UpdateTimestep = ⟨0, 0, 0⟩ := by
    simp [specExplicitEulerPosition, unitBody, Vector3_add_eq, Vector3_mul_eq]
  have hcode : (UpdatePhysicsObject inertExternals explicitEulerEngine unitBody).m_Position
      = ⟨0, -109 / 40000, 0⟩ := by
    simp [UpdatePhysicsObject, integrate, applyGravity, updateOrientation, updateAngularVelocity,
      explicitEulerEngine, runningEngine, LumosPhysicsEngine.construct, unitBody,
      inertExternals, PhysicsObject3D.GetIsStatic, PhysicsObject3D.IsAwake, Vector3_add_eq,
      Vector3_mul_eq]
    norm_num
  refine ⟨rfl, rfl, hspec, hcode, ?_⟩
  rw [hcode, hspec]
  intro h
  have hy := congrArg Vector3.y h
  norm_num at hy

end Lumos
